import Mathlib

set_option linter.unusedVariables false

/-!
Verification development for the conversational-agent core of the pchm
repository (backend/chatbot): form schemas, field validation, the
LangGraph-style node functions of `react_agent.py`, the rule-based
fallback chatbot, the resilience wrapper `process_message`, and the
`chatbot_message` turn endpoint of `views.py`.

Python strings are modelled as Lean `String`, floats as `ℚ`, dicts of
collected data as insertion-ordered association lists.  Fallible Python
operations (provider calls, persistence reads) are modelled by explicit
outcome values supplied through oracle records; a `try/except` block of
the source becomes a `match` on such an outcome.
-/

/-! ## Python-style string helpers -/

/-- Model of Python `str.strip()` on a character list. -/
def pyStripList (cs : List Char) : List Char :=
  ((cs.dropWhile Char.isWhitespace).reverse.dropWhile Char.isWhitespace).reverse

/-- Model of Python `str.strip()`. -/
def pyStrip (s : String) : String := ⟨pyStripList s.toList⟩

/-- Model of Python `str.lower()` (ASCII case fold, which is all the source uses). -/
def lowerStr (s : String) : String := ⟨s.toList.map Char.toLower⟩

/-- Model of Python `str.upper()`. -/
def upperStr (s : String) : String := ⟨s.toList.map Char.toUpper⟩

/-- Whether `pre` is an initial segment of the second list (Python `str.startswith`). -/
def startsWithSeq : List Char → List Char → Bool
  | [], _ => true
  | _ :: _, [] => false
  | a :: as, b :: bs => a == b && startsWithSeq as bs

/-- Whether `needle` occurs as a contiguous subsequence (Python `in` on strings). -/
def containsSeq (needle : List Char) : List Char → Bool
  | [] => startsWithSeq needle []
  | c :: rest => startsWithSeq needle (c :: rest) || containsSeq needle rest

/-- Python `needle in hay` for strings. -/
def containsSub (hay needle : String) : Bool := containsSeq needle.toList hay.toList

/-- Python `s.startswith(p)`. -/
def pyStartsWith (s p : String) : Bool := startsWithSeq p.toList s.toList

/-- Python `s.endswith(p)`. -/
def pyEndsWith (s p : String) : Bool :=
  startsWithSeq p.toList.reverse s.toList.reverse

/-- Python `text.split(sep)` for a single-character separator. -/
def splitOnChar (sep : Char) (cs : List Char) : List (List Char) :=
  cs.foldr
    (fun c acc =>
      match acc with
      | [] => [[c]]
      | line :: rest => if c == sep then [] :: (line :: rest) else (c :: line) :: rest)
    [[]]

/-- Python `'\n'.join(lines)`-style join with a single-character separator. -/
def joinWithChar (sep : Char) : List (List Char) → List Char
  | [] => []
  | [l] => l
  | l :: rest => l ++ sep :: joinWithChar sep rest

/-! ## Association-list model of Python dicts of strings -/

/-- Insertion-ordered string dictionary (Python `Dict[str, str]`). -/
abbrev StrDict := List (String × String)

/-- Dictionary lookup (`d.get(k)`); first binding wins, matching our insert discipline. -/
def dictGet (d : StrDict) (k : String) : Option String :=
  match d.find? (fun p => p.1 == k) with
  | some p => some p.2
  | none => none

/-- Python truthiness of `d.get(k)`: present and a non-empty string. -/
def dictTruthy (d : StrDict) (k : String) : Bool :=
  match dictGet d k with
  | some v => !(v == "")
  | none => false

/-- Python `d[k] = v`: update in place, or append preserving insertion order. -/
def dictInsert : StrDict → String → String → StrDict
  | [], k, v => [(k, v)]
  | p :: rest, k, v => if p.1 == k then (k, v) :: rest else p :: dictInsert rest k v

/-! ## JSON value model and a parser for the flat-object subset

The provider replies parsed by `_extract_json_from_text` are flat JSON
objects of strings, numbers, booleans and nulls (that is the shape the
prompts demand).  `parseJsonObj` models `json.loads` on that subset:
nested containers and string escapes are rejected (parse failure), which
is conservative for every theorem below since all of them either supply
inputs inside the subset or hypothesise that parsing fails. -/

/-- The opening brace character. -/
def lbrace : Char := Char.ofNat 123

/-- The closing brace character. -/
def rbrace : Char := Char.ofNat 125

/-- The apostrophe character, used to build string literals of the source. -/
def apos : String := ⟨[Char.ofNat 39]⟩

inductive JVal where
  | s (v : String)
  | n (v : ℚ)
  | b (v : Bool)
  | null
  deriving DecidableEq, Repr

/-- Flat JSON object, insertion ordered. -/
abbrev JObj := List (String × JVal)

/-- Lookup in a parsed object; with duplicate keys `json.loads` keeps the last one. -/
def jGet (o : JObj) (k : String) : Option JVal :=
  match o.reverse.find? (fun p => p.1 == k) with
  | some p => some p.2
  | none => none

/-- Python truthiness of a JSON value. -/
def jTruthy : JVal → Bool
  | .s v => !(v == "")
  | .n v => !(v == 0)
  | .b v => v
  | .null => false

/-- Python `str()` applied to a parsed JSON value (numeric rendering is only
ever exercised on integral values in this development). -/
def jStr : JVal → String
  | .s v => v
  | .n v => if v.den == 1 then toString v.num else toString v
  | .b v => if v then "True" else "False"
  | .null => "None"

def skipWs (cs : List Char) : List Char := cs.dropWhile Char.isWhitespace

/-- Parse a JSON string literal without escapes. -/
def parseStringLit : List Char → Option (String × List Char)
  | '"' :: rest =>
    let content := rest.takeWhile (fun c => !(c == '"') && !(c == '\\'))
    match rest.drop content.length with
    | '"' :: rest2 => some (⟨content⟩, rest2)
    | _ => none
  | _ => none

def digitsToNat (ds : List Char) : Nat :=
  ds.foldl (fun a c => a * 10 + (c.toNat - 48)) 0

/-- Parse a JSON number (optional sign, integer part, optional fraction). -/
def parseNumber (cs : List Char) : Option (ℚ × List Char) :=
  let neg := match cs with | '-' :: _ => true | _ => false
  let cs1 := match cs with | '-' :: r => r | _ => cs
  let intPart := cs1.takeWhile Char.isDigit
  if intPart.isEmpty then none else
  let rest := cs1.drop intPart.length
  let intVal : ℚ := mkRat (Int.ofNat (digitsToNat intPart)) 1
  match rest with
  | '.' :: r2 =>
    let fracPart := r2.takeWhile Char.isDigit
    if fracPart.isEmpty then none else
    let q : ℚ := mkRat
      (Int.ofNat (digitsToNat intPart * 10 ^ fracPart.length + digitsToNat fracPart))
      (10 ^ fracPart.length)
    some (if neg then -q else q, r2.drop fracPart.length)
  | _ => some (if neg then -intVal else intVal, rest)

/-- Parse one JSON scalar value of the subset. -/
def parseJValue (cs : List Char) : Option (JVal × List Char) :=
  match parseStringLit cs with
  | some (s, r) => some (.s s, r)
  | none =>
    if startsWithSeq "true".toList cs then some (.b true, cs.drop 4)
    else if startsWithSeq "false".toList cs then some (.b false, cs.drop 5)
    else if startsWithSeq "null".toList cs then some (.null, cs.drop 4)
    else match parseNumber cs with
      | some (q, r) => some (.n q, r)
      | none => none

/-- Parse a comma-separated list of `"key": value` pairs; fueled recursion. -/
def parsePairs : Nat → List Char → Option (JObj × List Char)
  | 0, _ => none
  | fuel + 1, cs =>
    match parseStringLit (skipWs cs) with
    | none => none
    | some (k, r1) =>
      match skipWs r1 with
      | ':' :: r2 =>
        match parseJValue (skipWs r2) with
        | none => none
        | some (v, r3) =>
          match skipWs r3 with
          | ',' :: r4 =>
            match parsePairs fuel r4 with
            | some (ps, r5) => some ((k, v) :: ps, r5)
            | none => none
          | r4 => some ([(k, v)], r4)
      | _ => none

/-- Model of `json.loads` restricted to flat objects; the whole input must be
consumed up to trailing whitespace, as `json.loads` requires. -/
def parseJsonObjList (cs : List Char) : Option JObj :=
  match skipWs cs with
  | [] => none
  | c :: r1 =>
    if !(c == lbrace) then none
    else match skipWs r1 with
      | [] => none
      | c2 :: r2 =>
        if c2 == rbrace then (if (skipWs r2).isEmpty then some [] else none)
        else match parsePairs (cs.length + 1) r1 with
          | some (ps, r2') =>
            match skipWs r2' with
            | c3 :: r3 => if c3 == rbrace && (skipWs r3).isEmpty then some ps else none
            | [] => none
          | none => none

def parseJsonObj (s : String) : Option JObj := parseJsonObjList s.toList

/-! ## The noise-stripping cascade `_clean_response_for_json` -/

def charEqCI (a b : Char) : Bool := a.toLower == b.toLower

def startsWithSeqCI : List Char → List Char → Bool
  | [], _ => true
  | _ :: _, [] => false
  | a :: as, b :: bs => charEqCI a b && startsWithSeqCI as bs

/-- Index of the first case-insensitive occurrence of `needle`. -/
def findIdxSeqCI (needle : List Char) : List Char → Option Nat
  | [] => if needle.isEmpty then some 0 else none
  | c :: rest =>
    if startsWithSeqCI needle (c :: rest) then some 0
    else match findIdxSeqCI needle (rest) with
      | some i => some (i + 1)
      | none => none

def findIdxChar (target : Char) (cs : List Char) : Option Nat :=
  cs.findIdx? (fun c => c == target)

/-- Remove one leftmost span matching `openM [^delim]* delim .*? closeM [^delim]* delim`
(the shape of the tag-pair regexes in `_clean_response_for_json`). -/
def removeOnePair (openM : List Char) (delim : Char) (closeM : List Char)
    (cs : List Char) : Option (List Char) :=
  match findIdxSeqCI openM cs with
  | none => none
  | some i =>
    let afterOpen := cs.drop (i + openM.length)
    match findIdxChar delim afterOpen with
    | none => none
    | some j =>
      let body := afterOpen.drop (j + 1)
      match findIdxSeqCI closeM body with
      | none => none
      | some k =>
        let afterCloseM := body.drop (k + closeM.length)
        match findIdxChar delim afterCloseM with
        | none => none
        | some m => some (cs.take i ++ afterCloseM.drop (m + 1))

/-- Repeatedly remove tag-pair spans, as `re.sub` replaces every occurrence. -/
def removePairs : Nat → List Char → Char → List Char → List Char → List Char
  | 0, _, _, _, cs => cs
  | fuel + 1, openM, delim, closeM, cs =>
    match removeOnePair openM delim closeM cs with
    | some cs' => removePairs fuel openM delim closeM cs'
    | none => cs

/-- Remove every `o [^c]* c` span (the `<[^>]*>` and `\[[^\]]*\]` substitutions). -/
def removeDelims : Nat → Char → Char → List Char → List Char
  | 0, _, _, cs => cs
  | fuel + 1, o, c, cs =>
    match cs with
    | [] => []
    | x :: rest =>
      if x == o then
        match findIdxChar c rest with
        | some j => removeDelims fuel o c (rest.drop (j + 1))
        | none => x :: removeDelims fuel o c rest
      else x :: removeDelims fuel o c rest

/-- Tag names stripped by the angle-bracket patterns, in source order. -/
def cleanTagNames : List String :=
  ["redacted_reasoning", "redacted", "think", "thinking", "reasoning", "parse", "observation"]

/-- Tag names stripped by the square-bracket patterns, in source order. -/
def cleanBracketNames : List String := ["think", "thinking", "reasoning", "redacted"]

/-- Leading-line thinking indicators of `_clean_response_for_json`. -/
def cleanJsonIndicators : List String :=
  ["okay, let" ++ apos ++ "s see", "okay let" ++ apos ++ "s see", "let me think",
   "i need to", "looking at", "first,", "check the", "the user sent", "the message is"]

/-- Whether `_clean_response_for_json` drops this line in its final filter. -/
def lineSkippedForJson (l : List Char) : Bool :=
  let stripped := pyStripList l
  let lower : String := lowerStr ⟨stripped⟩
  (cleanJsonIndicators.any (fun ind => containsSub lower ind)) &&
    !(startsWithSeq [lbrace] stripped)

/-- Model of `LangGraphChatbotAgent._clean_response_for_json`. -/
def cleanResponseForJson (text : String) : String :=
  if text == "" then text else
  let cs0 := text.toList
  let cs1 := cleanTagNames.foldl
    (fun acc nm => removePairs (acc.length + 1) ("<" ++ nm).toList '>' ("</" ++ nm).toList acc) cs0
  let cs2 := cleanBracketNames.foldl
    (fun acc nm => removePairs (acc.length + 1) ("[" ++ nm).toList ']' ("[/" ++ nm).toList acc) cs1
  let cs3 := removeDelims (cs2.length + 1) '<' '>' cs2
  let cs4 := removeDelims (cs3.length + 1) '[' ']' cs3
  let lines := splitOnChar '\n' cs4
  let kept := lines.filter (fun l => !(lineSkippedForJson l))
  pyStrip ⟨joinWithChar '\n' kept⟩

/-! ## The JSON-extraction cascade `_extract_json_from_text` -/

def nonBrace (c : Char) : Bool := !(c == lbrace) && !(c == rbrace)

/-- Suffix after the first occurrence of `needle`, when present. -/
def dropThroughSeq (needle : List Char) : List Char → Option (List Char)
  | [] => if needle.isEmpty then some [] else none
  | c :: rest =>
    if startsWithSeq needle (c :: rest) then some ((c :: rest).drop needle.length)
    else dropThroughSeq needle rest

/-- Shortest initial span of `body` (which begins with a brace) that ends with a
closing brace and is followed, after whitespace, by a closing code fence. -/
def scanCloseFence (body : List Char) : Option (List Char) :=
  (List.range (body.length + 1)).findSome? (fun n =>
    let cand := body.take n
    if cand.getLast? == some rbrace &&
        startsWithSeq "```".toList (skipWs (body.drop n)) then some cand else none)

/-- Candidate braced span of the fenced-block pattern. -/
def fencedCandidate (text : List Char) : Option (List Char) :=
  match dropThroughSeq "```".toList text with
  | none => none
  | some afterTicks =>
    let afterJson :=
      if startsWithSeq "json".toList afterTicks then afterTicks.drop 4 else afterTicks
    let body := skipWs afterJson
    match body with
    | [] => none
    | c :: _ => if c == lbrace then scanCloseFence body else none

/-- Model of the balanced-brace scan of `_extract_json_from_text`: walk the text
counting braces, and whenever the count returns to zero try to parse the span;
on parse failure the start index is reset and the scan continues. -/
def braceScan (text : List Char) : Option JObj :=
  let step := fun (st : Int × Option Nat × Option JObj) (i : Nat) =>
    match st with
    | (count, startIdx, found) =>
      if found.isSome then (count, startIdx, found)
      else
        let ch := text.getD i ' '
        if ch == lbrace then
          (count + 1, if startIdx.isNone then some i else startIdx, found)
        else if ch == rbrace then
          let c' := count - 1
          if c' == 0 && startIdx.isSome then
            match startIdx with
            | some s =>
              match parseJsonObjList ((text.take (i + 1)).drop s) with
              | some obj => (c', startIdx, some obj)
              | none => (c', none, none)
            | none => (c', startIdx, found)
          else (c', startIdx, found)
        else (count, startIdx, found)
  ((List.range text.length).foldl step (0, none, none)).2.2

/-- Greedy repetition of the depth-one groups of the regex
`\x7b[^\x7b\x7d]*(?:\x7b[^\x7b\x7d]*\x7d[^\x7b\x7d]*)*\x7d`. -/
def stage4Groups : Nat → List Char → (List Char × List Char)
  | 0, cs => ([], cs)
  | fuel + 1, cs =>
    match cs with
    | [] => ([], [])
    | c :: rest =>
      if c == lbrace then
        let a := rest.takeWhile nonBrace
        match rest.drop a.length with
        | [] => ([], c :: rest)
        | c2 :: rest2 =>
          if c2 == rbrace then
            let b := rest2.takeWhile nonBrace
            let (more, fin) := stage4Groups fuel (rest2.drop b.length)
            (c :: a ++ c2 :: b ++ more, fin)
          else ([], c :: rest)
      else ([], c :: rest)

/-- Match of the fallback flat-brace regex anchored at the head of `cs`. -/
def stage4At (cs : List Char) : Option (List Char) :=
  match cs with
  | [] => none
  | c :: rest =>
    if c == lbrace then
      let a := rest.takeWhile nonBrace
      let rest1 := rest.drop a.length
      let (groups, rest2) := stage4Groups (rest1.length + 1) rest1
      match rest2 with
      | c2 :: _ => if c2 == rbrace then some (c :: a ++ groups ++ [rbrace]) else none
      | [] => none
    else none

/-- Leftmost match of the fallback flat-brace regex. -/
def stage4Scan (cs : List Char) : Option (List Char) :=
  (List.range cs.length).findSome? (fun i =>
    if cs.getD i ' ' == lbrace then stage4At (cs.drop i) else none)

def countChar (c : Char) (cs : List Char) : Nat := cs.countP (fun x => x == c)

/-- Line accumulation of the last stage: from the first line whose stripped form
opens with a brace, collect lines until one closes with a brace and balances. -/
def stage5Collect : List (List Char) → Bool → List (List Char)
  | [], _ => []
  | l :: rest, inJson =>
    let st := pyStripList l
    if startsWithSeq [lbrace] st || inJson then
      if (match st.reverse with | c :: _ => c == rbrace | [] => false) &&
          countChar lbrace st ≤ countChar rbrace st then [l]
      else l :: stage5Collect rest true
    else stage5Collect rest inJson

/-- Model of `LangGraphChatbotAgent._extract_json_from_text`: direct parse, then
fenced block, then balanced-brace scan, then the flat-brace regex, then the
line-reconstruction stage. -/
def extractJsonFromText (text : String) : Option JObj :=
  if text == "" then none else
  let cs := text.toList
  match parseJsonObjList cs with
  | some obj => some obj
  | none =>
    match (fencedCandidate cs).bind parseJsonObjList with
    | some obj => some obj
    | none =>
      match braceScan cs with
      | some obj => some obj
      | none =>
        match (stage4Scan cs).bind parseJsonObjList with
        | some obj => some obj
        | none =>
          match stage5Collect (splitOnChar '\n' cs) false with
          | [] => none
          | ls => parseJsonObjList (joinWithChar '\n' ls)

/-! ## Form catalog (`form_schemas.py`) -/

structure FieldSchema where
  ftype : String
  minLength : Option Nat
  maxLength : Option Nat
  minVal : Option Int
  maxVal : Option Int
  options : Option (List String)
  isOptional : Bool
  regexPat : Option String
  deriving DecidableEq, Repr

/-- Schema entry with only a type, which is also what an absent entry behaves
like, since every consumer reads `field_schema.get(...)` with defaults. -/
def fsOf (t : String) : FieldSchema := ⟨t, none, none, none, none, none, false, none⟩

/-- String-like schema entry with a length range. -/
def fsStrLen (t : String) (mn mx : Nat) : FieldSchema :=
  ⟨t, some mn, some mx, none, none, none, false, none⟩

structure FormInfo where
  title : String
  description : String
  endpoint : String
  requiredFields : List String
  optionalFields : List String
  validation : List (String × FieldSchema)
  deriving DecidableEq, Repr

/-- The `FORM_SCHEMAS` registry. -/
def formSchemas : List (String × FormInfo) :=
  [("contact",
    ⟨"Contact Inquiry", "General contact form for inquiries", "inquiriesApi.create",
     ["full_name", "email", "subject", "message"], ["phone"],
     [("full_name", fsStrLen "string" 2 100),
      ("email", fsOf "email"),
      ("phone", ⟨"phone", none, none, none, none, none, true, none⟩),
      ("subject", fsStrLen "string" 5 200),
      ("message", fsStrLen "text" 10 1000)]⟩),
   ("make_claim",
    ⟨"Accident Claim", "Submit vehicle accident claims", "bookingsApi.submitClaim",
     ["first_name", "last_name", "email", "phone", "full_address",
      "accident_date", "vehicle_registration", "insurance_company",
      "policy_number", "accident_details", "pickup_location", "dropoff_location"],
     ["additional_notes", "documents"],
     [("first_name", fsStrLen "string" 2 50),
      ("last_name", fsStrLen "string" 2 50),
      ("email", fsOf "email"),
      ("phone", fsOf "phone"),
      ("full_address", fsStrLen "text" 10 500),
      ("accident_date", fsOf "date"),
      ("vehicle_registration",
       ⟨"string", none, none, none, none, none, false, some "^[A-Z0-9]\x7b1,10\x7d$"⟩),
      ("insurance_company", fsStrLen "string" 2 100),
      ("policy_number", fsStrLen "string" 5 50),
      ("accident_details", fsStrLen "text" 20 1000),
      ("pickup_location", fsOf "location"),
      ("dropoff_location", fsOf "location"),
      ("additional_notes", ⟨"text", none, some 500, none, none, none, true, none⟩),
      ("documents", ⟨"file", none, none, none, none, none, true, none⟩)]⟩),
   ("testimonial",
    ⟨"Customer Testimonial", "Submit customer feedback and testimonials",
     "testimonialsApi.create",
     ["full_name", "feedback", "rating"], ["service_used"],
     [("full_name", fsStrLen "string" 2 100),
      ("service_used",
       ⟨"select", none, none, none, none,
        some ["Car Hire", "Car Rental", "Claims Management", "Car Purchase/Sale"],
        true, none⟩),
      ("feedback", fsStrLen "text" 10 1000),
      ("rating", ⟨"integer", none, none, some 1, some 5, none, false, none⟩)]⟩),
   ("newsletter_subscribe",
    ⟨"Newsletter Subscription", "Subscribe to newsletter", "newsletterApi.subscribe",
     ["email"], [], [("email", fsOf "email")]⟩),
   ("newsletter_unsubscribe",
    ⟨"Newsletter Unsubscription", "Unsubscribe from newsletter",
     "newsletterApi.unsubscribe",
     ["email"], [], [("email", fsOf "email")]⟩),
   ("car_purchase",
    ⟨"Car Purchase Request", "Submit interest in purchasing a vehicle",
     "carSalesApi.submitPurchaseRequest",
     ["name", "email", "phone"],
     ["message", "offer_price", "financing_required", "trade_in_details"],
     [("name", fsStrLen "string" 2 100),
      ("email", fsOf "email"),
      ("phone", fsOf "phone"),
      ("message", ⟨"text", none, some 500, none, none, none, true, none⟩),
      ("offer_price", ⟨"number", none, none, some 0, none, none, true, none⟩),
      ("financing_required", ⟨"boolean", none, none, none, none, none, true, none⟩),
      ("trade_in_details", ⟨"text", none, some 500, none, none, none, true, none⟩)]⟩),
   ("car_sell",
    ⟨"Sell Vehicle Request", "Submit request to sell a vehicle",
     "carSalesApi.submitSellRequest",
     ["name", "vehicle_make", "vehicle_model"],
     ["email", "phone", "vehicle_year", "mileage", "message", "vehicle_image"],
     [("name", fsStrLen "string" 2 100),
      ("email", ⟨"email", none, none, none, none, none, true, none⟩),
      ("phone", ⟨"phone", none, none, none, none, none, true, none⟩),
      ("vehicle_make", fsStrLen "string" 2 50),
      ("vehicle_model", fsStrLen "string" 2 50),
      ("vehicle_year", ⟨"integer", none, none, some 1900, some 2030, none, true, none⟩),
      ("mileage", ⟨"integer", none, none, some 0, none, none, true, none⟩),
      ("message", ⟨"text", none, some 500, none, none, none, true, none⟩),
      ("vehicle_image", ⟨"file", none, none, none, none, none, true, none⟩)]⟩)]

def schemaLookup (k : String) : Option FormInfo :=
  match formSchemas.find? (fun p => p.1 == k) with
  | some p => some p.2
  | none => none

/-- Python `form_type in self.form_schemas`. -/
def isFormKey (k : String) : Bool := (formSchemas.find? (fun p => p.1 == k)).isSome

/-- Model of `self.form_schemas[form]['validation'].get(field, \x7b\x7d)`:
a missing entry behaves exactly like a bare string schema. -/
def fieldSchemaOf (form field : String) : FieldSchema :=
  match schemaLookup form with
  | some fi =>
    match fi.validation.find? (fun p => p.1 == field) with
    | some p => p.2
    | none => fsOf "string"
  | none => fsOf "string"

/-- The `FORM_QUESTIONS` prompt registry. -/
def formQuestions : List (String × List (String × String)) :=
  [("contact",
    [("full_name", "May I have your full name please?"),
     ("email", "What" ++ apos ++ "s the best email address to reach you at?"),
     ("phone", "Would you like to provide a phone number for faster assistance?"),
     ("subject", "What" ++ apos ++ "s the main topic or subject of your inquiry?"),
     ("message", "Please share any additional details about your inquiry. I" ++ apos ++ "m here to help.")]),
   ("make_claim",
    [("first_name", "To get started with your claim, may I have your first name?"),
     ("last_name", "And your last name please?"),
     ("email", "What" ++ apos ++ "s your email address so we can keep you updated on your claim?"),
     ("phone", "What" ++ apos ++ "s the best phone number to reach you at regarding your claim?"),
     ("full_address", "Could you please provide your full address for the claim documentation?"),
     ("accident_date", "When did the accident occur? (Please provide the date)"),
     ("vehicle_registration", "What" ++ apos ++ "s the registration number of the vehicle involved?"),
     ("insurance_company", "Which insurance company handles your policy?"),
     ("policy_number", "What" ++ apos ++ "s your policy number with them?"),
     ("accident_details", "Could you please describe what happened in the accident? Any details would be helpful."),
     ("pickup_location", "Where would you like us to pick up the replacement vehicle?"),
     ("dropoff_location", "And where should we deliver it to?"),
     ("additional_notes", "Is there anything else you" ++ apos ++ "d like to add about your claim?")]),
   ("testimonial",
    [("full_name", "May I have your name for this testimonial?"),
     ("service_used", "Which of our services have you used? (Car Hire, Car Rental, Claims Management, or Car Purchase/Sale)"),
     ("feedback", "I" ++ apos ++ "d love to hear about your experience. Please share your feedback with us."),
     ("rating", "On a scale of 1-5 stars, how would you rate your experience with us?")]),
   ("newsletter_subscribe",
    [("email", "What" ++ apos ++ "s your email address for the newsletter subscription?")]),
   ("newsletter_unsubscribe",
    [("email", "What" ++ apos ++ "s the email address you" ++ apos ++ "d like to unsubscribe from our newsletter?")]),
   ("car_purchase",
    [("name", "May I have your full name for this purchase inquiry?"),
     ("email", "What" ++ apos ++ "s your email address so we can discuss the vehicle details?"),
     ("phone", "And your phone number for any immediate questions?"),
     ("message", "Is there anything specific you" ++ apos ++ "d like to know about this vehicle?"),
     ("offer_price", "Do you have an offer price in mind for this vehicle?"),
     ("financing_required", "Are you interested in financing options for this purchase?"),
     ("trade_in_details", "Do you have a vehicle you" ++ apos ++ "d like to trade in?")]),
   ("car_sell",
    [("name", "May I have your name for this vehicle sale inquiry?"),
     ("email", "What" ++ apos ++ "s your email address so we can discuss the valuation?"),
     ("phone", "And your phone number for coordination?"),
     ("vehicle_make", "What" ++ apos ++ "s the make of the vehicle you" ++ apos ++ "d like to sell?"),
     ("vehicle_model", "And the model?"),
     ("vehicle_year", "What year was it manufactured?"),
     ("mileage", "What" ++ apos ++ "s the current mileage on the vehicle?"),
     ("message", "Is there anything specific you" ++ apos ++ "d like to tell us about the vehicle?")])]

def underscoreToSpace (s : String) : String :=
  ⟨s.toList.map (fun c => if c == '_' then ' ' else c)⟩

/-- Fallback prompt of `question_generator_node` for a field with no entry. -/
def defaultQuestion (field : String) : String :=
  "Could you please provide your " ++ underscoreToSpace field ++ "?"

/-- Model of `self.form_questions.get(form, \x7b\x7d).get(field, default)`. -/
def questionOf (form field : String) : String :=
  match formQuestions.find? (fun p => p.1 == form) with
  | some p =>
    match p.2.find? (fun q => q.1 == field) with
    | some q => q.2
    | none => defaultQuestion field
  | none => defaultQuestion field

/-! ## Field-value validation (`_validate_field_value` of `react_agent.py`) -/

def isEmailLocalChar (c : Char) : Bool :=
  c.isAlphanum || c == '.' || c == '_' || c == '%' || c == '+' || c == '-'

def isDomainChar (c : Char) : Bool := c.isAlphanum || c == '.' || c == '-'

/-- Whether the part after the at-sign matches the anchored regex remainder
(one or more domain characters, a dot, then at least two letters). -/
def emailDomainMatch (rest : List Char) : Bool :=
  (List.range rest.length).any (fun i =>
    decide (1 ≤ i) && ((rest.drop i).head? == some '.') &&
    (rest.take i).all isDomainChar &&
    (decide (2 ≤ (rest.drop (i + 1)).length) && (rest.drop (i + 1)).all Char.isAlpha))

/-- Model of `re.match` against the anchored email regex used throughout the
source: one or more local-part characters, an at-sign, one or more domain
characters, a dot, and a two-plus-letter tail consuming the whole string. -/
def matchesEmailPattern (s : String) : Bool :=
  let cs := s.toList
  let localPart := cs.takeWhile (fun c => !(c == '@'))
  match cs.drop localPart.length with
  | '@' :: dom =>
    !localPart.isEmpty && localPart.all isEmailLocalChar && emailDomainMatch dom
  | _ => false

/-- Model of Python `int(value)` on strings. -/
def pyInt (s : String) : Option Int :=
  let cs := pyStripList s.toList
  let sign : Int := match cs with | '-' :: _ => -1 | _ => 1
  let ds := match cs with | '-' :: r => r | '+' :: r => r | _ => cs
  if ds.isEmpty || !(ds.all Char.isDigit) then none
  else some (sign * (digitsToNat ds : Int))

/-- Count of digit characters, modelling `re.sub(r'[^\d]', '', value)` length. -/
def digitCount (s : String) : Nat := (s.toList.filter Char.isDigit).length

/-- Model of `LangGraphChatbotAgent._validate_field_value`.  Types other than
email, phone, string, text, integer and select fall through to `True`, as in
the source. -/
def validateFieldValue (value : String) (fs : FieldSchema) : Bool :=
  if value == "" then false
  else if fs.ftype == "email" then matchesEmailPattern value
  else if fs.ftype == "phone" then 7 ≤ digitCount value
  else if fs.ftype == "string" || fs.ftype == "text" then
    (match fs.minLength with | some m => decide (m ≤ value.length) | none => true) &&
    (match fs.maxLength with | some m => decide (value.length ≤ m) | none => true)
  else if fs.ftype == "integer" then
    match pyInt value with
    | none => false
    | some n =>
      (match fs.minVal with | some m => decide (m ≤ n) | none => true) &&
      (match fs.maxVal with | some m => decide (n ≤ m) | none => true)
  else if fs.ftype == "select" then
    match fs.options with
    | some opts => opts.contains value
    | none => true
  else true

/-! ## Provider failure tracking (`__init__` / `_mark_api_failure` /
`reload_api_key` / `_is_client_available`) -/

/-- Mutable provider-related fields of `LangGraphChatbotAgent`. -/
structure AgentState where
  clientSome : Bool
  apiDisabled : Bool
  apiFailureCount : Nat
  deriving DecidableEq, Repr

/-- Model of `_is_client_available`. -/
def isClientAvailable (ag : AgentState) : Bool := ag.clientSome && !ag.apiDisabled

/-- The authentication-error test of `_mark_api_failure`. -/
def isAuthError (msg : String) : Bool :=
  containsSub msg "401" || containsSub (lowerStr msg) "invalid_api_key" ||
    containsSub (lowerStr msg) "unauthorized"

/-- Model of `_mark_api_failure`: an authentication-class error disables the
client immediately (and drops it); other errors are counted and disable it
once the count reaches three. -/
def markApiFailure (ag : AgentState) (errMsg : String) : AgentState :=
  if isAuthError errMsg then
    if !ag.apiDisabled then { ag with apiDisabled := true, clientSome := false }
    else ag
  else
    let cnt := ag.apiFailureCount + 1
    if 3 ≤ cnt then { ag with apiFailureCount := cnt, apiDisabled := true }
    else { ag with apiFailureCount := cnt }

/-- Outcomes of the fallible operations inside `reload_api_key`. -/
structure ReloadOracle where
  settingsReadFails : Bool
  apiKey : Option String
  clientInitFails : Bool
  deriving DecidableEq, Repr

/-- Model of `reload_api_key`: reset the failure tracking, then re-disable if
the key is absent, the client cannot be constructed, or the key is not of the
expected `gsk_` shape.  The outer handler returns `False` leaving the state
untouched. -/
def reloadApiKey (ag : AgentState) (o : ReloadOracle) : AgentState × Bool :=
  if o.settingsReadFails then (ag, false)
  else
    let ag1 : AgentState := { ag with apiFailureCount := 0, apiDisabled := false }
    match o.apiKey with
    | none => ({ ag1 with clientSome := false, apiDisabled := true }, false)
    | some key =>
      if o.clientInitFails then ({ ag1 with clientSome := false, apiDisabled := true }, false)
      else if !(pyStartsWith key "gsk_") then
        ({ ag1 with clientSome := true, apiDisabled := true }, false)
      else ({ ag1 with clientSome := true }, true)

/-- Whether a reload attempt with this oracle fails, independently of the
state it is run from. -/
def reloadFails (o : ReloadOracle) : Bool := !(reloadApiKey ⟨true, true, 0⟩ o).2

/-- Outcome of one `client.chat.completions.create` call: an exception with
its message, an empty/absent choice content, or a text reply. -/
inductive ApiOutcome where
  | raised (msg : String)
  | noContent
  | content (text : String)
  deriving DecidableEq, Repr

/-! ## Regex-search fallbacks used by the extractors -/

def isWordChar (c : Char) : Bool := c.isAlphanum || c == '_'

/-- Attempt of the unanchored email search at start index `i`: a word-bounded
local part, an at-sign, and a domain run whose last dot is followed by a
two-plus-letter word-bounded tail. -/
def emailMatchAt (cs : List Char) (i : Nat) : Option (List Char) :=
  let rest := cs.drop i
  let localPart := rest.takeWhile isEmailLocalChar
  if localPart.isEmpty then none
  else
    let prevIsWord := if i == 0 then false else isWordChar (cs.getD (i - 1) ' ')
    let firstIsWord := isWordChar (localPart.headD ' ')
    if prevIsWord == firstIsWord then none
    else
      match rest.drop localPart.length with
      | '@' :: dom =>
        let domRun := dom.takeWhile isDomainChar
        let after := dom.drop domRun.length
        (List.range domRun.length).reverse.findSome? (fun j =>
          if (domRun.getD j ' ' == '.') && decide (1 ≤ j) then
            let tld := domRun.drop (j + 1)
            if decide (2 ≤ tld.length) && tld.all Char.isAlpha &&
                !(match after.head? with | some c => isWordChar c | none => false) then
              some (localPart ++ '@' :: domRun)
            else none
          else none)
      | _ => none

/-- Model of `re.search` for the word-bounded email pattern: leftmost match. -/
def emailSearch (cs : List Char) : Option (List Char) :=
  (List.range cs.length).findSome? (fun i => emailMatchAt cs i)

def isPhoneChar (c : Char) : Bool :=
  c.isDigit || c.isWhitespace || c == '+' || c == '-' || c == '(' || c == ')'

/-- Model of `re.search(r'[\d\s\+\-\(\)]\x7b7,\x7d', message)`: the leftmost
run of at least seven phone characters, taken greedily. -/
def phoneSearch (cs : List Char) : Option (List Char) :=
  (List.range cs.length).findSome? (fun i =>
    let run := (cs.drop i).takeWhile isPhoneChar
    if 7 ≤ run.length && (decide (i = 0) || !(isPhoneChar (cs.getD (i - 1) 'x'))) then
      some run
    else none)

/-! ## Field extraction (`_extract_field_value`, `_extract_multiple_fields_from_message`,
`_extract_contact_info`) -/

/-- Model of `validation_rules.get(field_name, \x7b\x7d)` feeding `if field_schema:`
truthiness: `none` covers both an unknown form and an empty (missing) entry. -/
def fieldSchemaOpt (form field : String) : Option FieldSchema :=
  match schemaLookup form with
  | some fi =>
    match fi.validation.find? (fun p => p.1 == field) with
    | some p => some p.2
    | none => none
  | none => none

/-- Python `s[1:-1]`. -/
def dropEnds (s : String) : String := ⟨(s.toList.drop 1).dropLast⟩

/-- Characters removed by the chained `replace` calls of the phone check. -/
def phonePunctRemoved (s : String) : String :=
  ⟨s.toList.filter (fun c =>
    !(c == ' ' || c == '-' || c == '+' || c == '(' || c == ')'))⟩

/-- Python `s.isdigit()`. -/
def pyIsDigit (s : String) : Bool := !(s == "") && s.toList.all Char.isDigit

/-- Name-like fields eligible for the raw-message fallback of
`_extract_field_value`. -/
def nameLikeFields : List String := ["name", "full_name", "first_name", "last_name"]

/-- Model of `LangGraphChatbotAgent._extract_field_value`.  Note that when the
client is unavailable the source returns the literal string `"NOT_FOUND"`
(not `None`), and that on the success path only email and phone values are
validated. -/
def extractFieldValue (ag : AgentState) (o : ApiOutcome)
    (message fieldName formType : String) : AgentState × Option String :=
  if message == "" || fieldName == "" || formType == "" then (ag, none)
  else
    let fieldSchema := fieldSchemaOpt formType fieldName
    if !(isClientAvailable ag) then (ag, some "NOT_FOUND")
    else
      match o with
      | .noContent => (ag, none)
      | .content text =>
        let e0 := pyStrip text
        let e1 := if pyStartsWith e0 "\"" && pyEndsWith e0 "\"" then dropEnds e0 else e0
        let e2 := if pyStartsWith e1 apos && pyEndsWith e1 apos then dropEnds e1 else e1
        if upperStr e2 == "NOT_FOUND" || e2 == "" then (ag, none)
        else
          (ag,
            match fieldSchema with
            | some fs =>
              if fs.ftype == "email" then
                if matchesEmailPattern e2 then some e2 else none
              else if fs.ftype == "phone" then
                let digitsOnly := phonePunctRemoved e2
                if !(pyIsDigit digitsOnly) || digitsOnly.length < 7 then none else some e2
              else some e2
            | none => some e2)
      | .raised msg =>
        let ag' := markApiFailure ag msg
        let regexResult : Option String :=
          match fieldSchema with
          | some fs =>
            if fs.ftype == "email" then
              match emailSearch message.toList with
              | some m => some (⟨m⟩ : String)
              | none => none
            else if fs.ftype == "phone" then
              match phoneSearch message.toList with
              | some m =>
                let phone := pyStrip ⟨m⟩
                if 7 ≤ digitCount phone then some (pyStrip phone) else none
              | none => none
            else none
          | none => none
        match regexResult with
        | some v => (ag', some v)
        | none =>
          if nameLikeFields.contains fieldName && (pyStrip message).length < 50 then
            (ag', some (pyStrip message))
          else (ag', none)

/-- Validation loop over the parsed provider object: in field order, keep the
truthy, non-sentinel values that pass `_validate_field_value`. -/
def validatedExtraction (formType : String) (obj : JObj) : List String → StrDict
  | [] => []
  | fieldName :: rest =>
    let tail := validatedExtraction formType obj rest
    match jGet obj fieldName with
    | none => tail
    | some v =>
      if jTruthy v && !(pyStrip (jStr v) == "") &&
          !(upperStr (jStr v) == "NOT_FOUND") && !(lowerStr (jStr v) == "null") then
        if validateFieldValue (pyStrip (jStr v)) (fieldSchemaOf formType fieldName) then
          (fieldName, pyStrip (jStr v)) :: tail
        else tail
      else tail

/-- Model of `LangGraphChatbotAgent._extract_multiple_fields_from_message`:
every accepted value has passed `_validate_field_value`; anything else is
simply absent from the returned map. -/
def extractMultipleFields (ag : AgentState) (o : ApiOutcome)
    (message : String) (fieldNames : List String) (formType : String)
    (collected : StrDict) : AgentState × StrDict :=
  if message == "" || fieldNames.isEmpty || formType == "" then (ag, [])
  else if !(isFormKey formType) then (ag, [])
  else if !(isClientAvailable ag) then (ag, [])
  else
    match o with
    | .raised msg => (markApiFailure ag msg, [])
    | .noContent => (ag, [])
    | .content text =>
      let cleaned := cleanResponseForJson (pyStrip text)
      match extractJsonFromText cleaned with
      | none => (ag, [])
      | some obj => (ag, validatedExtraction formType obj fieldNames)

/-- Model of `LangGraphChatbotAgent._extract_contact_info`: regex extraction of
email and phone first, then the provider result merged over it (the collected
conversation history only feeds the prompt). -/
def extractContactInfo (ag : AgentState) (o : ApiOutcome) (message : String) :
    AgentState × StrDict :=
  if message == "" then (ag, [])
  else
    let base0 : StrDict :=
      match emailSearch message.toList with
      | some m => [("email", (⟨m⟩ : String))]
      | none => []
    let base : StrDict := base0 ++
      (match phoneSearch message.toList with
       | some m =>
         let phone := pyStrip ⟨m⟩
         if 7 ≤ digitCount phone then [("phone", phone)] else []
       | none => [])
    if !(isClientAvailable ag) then (ag, base)
    else
      match o with
      | .raised msg => (markApiFailure ag msg, base)
      | .noContent => (ag, base)
      | .content text =>
        let cleaned := cleanResponseForJson (pyStrip text)
        match extractJsonFromText cleaned with
        | none => (ag, base)
        | some obj =>
          let upd := fun (d : StrDict) (k : String) =>
            match jGet obj k with
            | some v => if jTruthy v then dictInsert d k (jStr v) else d
            | none => d
          (ag, upd (upd (upd base "name") "email") "phone")

/-! ## Pipeline state (`ConversationState`) and node functions -/

/-- The `ConversationState` TypedDict.  Messages are (type, content) pairs;
timestamps only ever feed prompt text and are omitted. -/
structure ConvState where
  sessionId : String
  userInfo : StrDict
  messages : List (String × String)
  currentMessage : String
  currentForm : Option String
  currentStep : Option String
  collectedData : StrDict
  requiredFields : List String
  completedFields : List String
  intent : Option String
  confidence : ℚ
  intentReasoning : Option String
  isFormActive : Bool
  formCompleted : Bool
  requiresConfirmation : Bool
  manualReplyActive : Bool
  response : Option String
  responseType : String
  nextNode : Option String
  deriving DecidableEq, Repr

/-- Required-field list of a form, `form_info.get('required_fields', [])`. -/
def requiredOf (form : String) : List String :=
  match schemaLookup form with
  | some fi => fi.requiredFields
  | none => []

/-- Fields of `required` still missing from `collected`:
`[f for f in required if f not in collected or not collected.get(f)]`. -/
def missingFields (required : List String) (collected : StrDict) : List String :=
  required.filter (fun f => !(dictTruthy collected f))

/-- Intent keywords of the in-form task-switch heuristic. -/
def intentKeywords : List String :=
  ["wanna", "want", "need", "help", "hire", "buy", "sell", "claim", "contact",
   "subscribe", "unsubscribe", "testimonial", "review"]

/-- The heuristic of `intent_classifier_node`: the message contains an intent
keyword and is longer than five characters. -/
def looksLikeNewIntent (message : String) : Bool :=
  let ml := pyStrip (lowerStr message)
  (intentKeywords.any (fun k => containsSub ml k)) && decide (5 < message.length)

/-- Python `float()` applied to a parsed JSON value; `none` models the
`ValueError`/`TypeError` caught by the enclosing handler. -/
def pyFloat : JVal → Option ℚ
  | .n q => some q
  | .b v => some (if v then 1 else 0)
  | .s v =>
    match parseNumber (pyStripList v.toList) with
    | some (q, rest) => if rest.isEmpty then some q else none
    | none => none
  | .null => none

/-- State written on the classifier fallback paths: intent `general`,
confidence `0.3`, the given reasoning, route to the general branch. -/
def classifierFallbackState (st : ConvState) (reason : Option String) : ConvState :=
  { st with intent := some "general", confidence := mkRat 3 10,
            intentReasoning := match reason with | some r => some r | none => st.intentReasoning,
            nextNode := some "general" }

/-- Provider-backed tail of `intent_classifier_node`: the single provider call
is described by `o`; every failure path of the source writes a fallback state
rather than raising. -/
def classifyViaProvider (ag : AgentState) (o : ApiOutcome) (st : ConvState) :
    AgentState × ConvState :=
  if !(isClientAvailable ag) then
    (ag, classifierFallbackState st (some "API unavailable - using fallback"))
  else
    match o with
    | .raised msg =>
      (markApiFailure ag msg,
       classifierFallbackState st (some ("API error: " ++ (⟨msg.toList.take 50⟩ : String))))
    | .noContent => (ag, classifierFallbackState st (some "Empty API response"))
    | .content text =>
      let rt := pyStrip text
      if rt == "" then (ag, classifierFallbackState st (some "Empty response text"))
      else
        match extractJsonFromText (cleanResponseForJson rt) with
        | none =>
          (ag, classifierFallbackState st (some "Failed to parse JSON response"))
        | some obj =>
          let intentJ := (jGet obj "intent").getD (.s "general")
          match pyFloat ((jGet obj "confidence").getD (.n (mkRat 1 2))) with
          | none => (ag, classifierFallbackState st none)
          | some conf =>
            let reasoning := jStr ((jGet obj "reasoning").getD (.s ""))
            let valid := match intentJ with
              | .s s => isFormKey s || s == "general"
              | _ => false
            let intentStr := match intentJ with
              | .s s => if isFormKey s || s == "general" then s else "general"
              | _ => "general"
            let conf' := if valid then conf else mkRat 3 10
            (ag, { st with intent := some intentStr, confidence := conf',
                           intentReasoning := some reasoning,
                           nextNode := some (if isFormKey intentStr then "form_flow" else "general") })

/-- Model of `LangGraphChatbotAgent.intent_classifier_node`: the in-form
short-circuit heuristics, falling through to the provider-backed
classification tail `classifyViaProvider`. -/
def intentClassifierNode (ag : AgentState) (o : ApiOutcome) (st : ConvState) :
    AgentState × ConvState :=
  let shortCircuit := fun (cf : String) (reason : String) =>
    (ag, { st with intent := some cf, confidence := 1,
                   intentReasoning := some reason, nextNode := some "form_flow" })
  match st.currentForm with
  | some cf =>
    if looksLikeNewIntent st.currentMessage then
      let missing := missingFields (requiredOf cf) st.collectedData
      if !missing.isEmpty then
        shortCircuit cf
          ("Already in active form (" ++ cf ++ "), continuing to collect missing fields")
      else classifyViaProvider ag o st
    else shortCircuit cf "Already in active form"
  | none => classifyViaProvider ag o st

/-- Commit loop shared by `form_router_node` and `data_extractor_node`: store
each truthy extracted value whose field is still missing, extending the
completed list on first sight. -/
def commitExtracted : StrDict → List String → StrDict → List String →
    StrDict × List String
  | [], _, collected, completed => (collected, completed)
  | p :: rest, missing, collected, completed =>
    if !(p.2 == "") && missing.contains p.1 then
      commitExtracted rest missing (dictInsert collected p.1 p.2)
        (if completed.contains p.1 then completed else completed ++ [p.1])
    else commitExtracted rest missing collected completed

/-- Model of `LangGraphChatbotAgent.form_router_node`.  The oracle describes
the single multi-field extraction call this node can make.  An active form
missing from the catalog would raise `KeyError` in the source (caught only by
`process_message`); it is modelled by the empty required list, a case no
theorem below relies on. -/
def formRouterNode (ag : AgentState) (o : ApiOutcome) (st : ConvState) :
    AgentState × ConvState :=
  let currentMessage := pyStrip st.currentMessage
  match st.currentForm with
  | none =>
    match st.intent with
    | some it =>
      if isFormKey it then
        let required0 := requiredOf it
        let ui := st.userInfo
        let (collected1, completed1, required1) :=
          if dictTruthy ui "name" then
            match (["name", "full_name", "first_name"].find? (fun f => required0.contains f)) with
            | some f =>
              (dictInsert [] f ((dictGet ui "name").getD ""), [f], required0.erase f)
            | none => ([], [], required0)
          else ([], [], required0)
        let (collected2, completed2, required2) :=
          if dictTruthy ui "email" && required1.contains "email" then
            (dictInsert collected1 "email" ((dictGet ui "email").getD ""),
             completed1 ++ ["email"], required1.erase "email")
          else (collected1, completed1, required1)
        let (collected3, completed3, required3) :=
          if dictTruthy ui "phone" && required2.contains "phone" then
            (dictInsert collected2 "phone" ((dictGet ui "phone").getD ""),
             completed2 ++ ["phone"], required2.erase "phone")
          else (collected2, completed2, required2)
        (ag, { st with currentForm := some it, isFormActive := true,
                       requiredFields := required3, collectedData := collected3,
                       completedFields := completed3, nextNode := some "start_form" })
      else (ag, { st with nextNode := some "general" })
    | none => (ag, { st with nextNode := some "general" })
  | some cf =>
    match st.currentStep with
    | some _ => (ag, { st with nextNode := some "extract_data" })
    | none =>
      let collected := st.collectedData
      let required := missingFields (requiredOf cf) collected
      if required.isEmpty then
        (ag, { st with requiredFields := [], nextNode := some "validate" })
      else
        let er := extractMultipleFields ag o currentMessage required cf collected
        let extracted := er.2
        if !extracted.isEmpty then
          let cc := commitExtracted extracted required collected st.completedFields
          let remaining := missingFields (requiredOf cf) cc.1
          (er.1, { st with collectedData := cc.1, completedFields := cc.2,
                           requiredFields := remaining,
                           nextNode := some (if remaining.isEmpty then "validate" else "start_form") })
        else
          (er.1, { st with requiredFields := required, nextNode := some "start_form" })

/-- Python truthiness of the single-field extraction result. -/
def optTruthy : Option String → Bool
  | some v => !(v == "")
  | none => false

/-- Model of `LangGraphChatbotAgent.data_extractor_node`; `oSingle` is the
targeted-field provider call, `oMulti` the remaining-fields call. -/
def dataExtractorNode (ag : AgentState) (oSingle oMulti : ApiOutcome)
    (st : ConvState) : AgentState × ConvState :=
  match st.currentForm with
  | none => (ag, { st with nextNode := some "general" })
  | some cf =>
    match schemaLookup cf with
    | none => (ag, { st with nextNode := some "general" })
    | some fi =>
      let collected0 := st.collectedData
      let completed0 := st.completedFields
      let missing := missingFields fi.requiredFields collected0
      let singleStep :=
        match st.currentStep with
        | some step =>
          if missing.contains step then
            let er := extractFieldValue ag oSingle st.currentMessage step cf
            if optTruthy er.2 then
              (er.1, dictInsert collected0 step (er.2.getD ""),
               if completed0.contains step then completed0 else completed0 ++ [step])
            else (er.1, collected0, completed0)
          else (ag, collected0, completed0)
        | none => (ag, collected0, completed0)
      let ag1 := singleStep.1
      let collected1 := singleStep.2.1
      let completed1 := singleStep.2.2
      let remainingMissing := match st.currentStep with
        | some step => missing.filter (fun f => !(f == step))
        | none => missing
      let multiStep :=
        if !remainingMissing.isEmpty then
          let er :=
            extractMultipleFields ag1 oMulti st.currentMessage remainingMissing cf collected1
          if !er.2.isEmpty then
            let cc := commitExtracted er.2 remainingMissing collected1 completed1
            (er.1, cc.1, cc.2)
          else (er.1, collected1, completed1)
        else (ag1, collected1, completed1)
      let ag2 := multiStep.1
      let collected2 := multiStep.2.1
      let completed2 := multiStep.2.2
      let required := missingFields fi.requiredFields collected2
      (ag2, { st with collectedData := collected2, completedFields := completed2,
                      currentStep := none, requiredFields := required,
                      nextNode := some (if required.isEmpty then "validate" else "next_question") })

/-- Title of a form, `form_info.get('title', 'form')`. -/
def formTitleOf (form : Option String) : String :=
  match form with
  | some f => (match schemaLookup f with | some fi => fi.title | none => "form")
  | none => "form"

/-- Model of `LangGraphChatbotAgent.question_generator_node`: a pure function
of the state that picks the first remaining required field and renders its
prompt behind a progress-dependent wrapper. -/
def questionGeneratorNode (st : ConvState) : ConvState :=
  match st.currentForm, st.requiredFields with
  | none, _ =>
    { st with response := some "Thank you! I have all the information I need.",
              responseType := "general", nextNode := some "end" }
  | some _, [] =>
    { st with response := some "Thank you! I have all the information I need.",
              responseType := "general", nextNode := some "end" }
  | some cf, nextField :: restFields =>
    let totalRequired := (requiredOf cf).length
    let collectedCount := st.collectedData.length
    let remainingCount := (nextField :: restFields).length
    let question := questionOf cf nextField
    let formTitle := formTitleOf (some cf)
    let response :=
      if collectedCount == 0 then
        "I" ++ apos ++ "d be happy to help you with " ++ formTitle ++ ". " ++ question
      else if 0 < collectedCount && 1 < remainingCount then
        "Great! " ++ question ++ " (" ++ toString collectedCount ++ " of " ++
          toString totalRequired ++ " completed)"
      else if remainingCount == 1 then
        "Almost there! " ++ question ++ " (just 1 more field needed)"
      else question
    { st with currentStep := some nextField, response := some response,
              responseType := "question", nextNode := some "end" }

/-- Model of `LangGraphChatbotAgent.validator_node`. -/
def validatorNode (st : ConvState) : ConvState :=
  match st.currentForm with
  | none => { st with nextNode := some "end" }
  | some cf =>
    let errors := missingFields (requiredOf cf) st.collectedData
    if !errors.isEmpty then
      { st with requiredFields := errors, nextNode := some "ask_question" }
    else { st with nextNode := some "confirm" }

/-! ## Rule-Based Responder (`rule_based_chatbot.py`)

The keyword/regex scoring of `classify_intent` is deterministic source code,
but no claim depends on its internals, so it enters the model as an explicit
function argument quantified in the theorems; `generate_response` and
`_get_response_for_intent` are modelled in full.  Only the first entry of
each canned response list is carried: `_get_response_for_intent` always
returns `responses[0]`, so the remaining variants are dead values. -/

/-- Helper writing source string literals: a tilde stands for the apostrophe
(the source strings contain no tilde). -/
def aq (s : String) : String :=
  ⟨s.toList.map (fun c => if c == '~' then Char.ofNat 39 else c)⟩

/-- The fixed ultimate fallback string of the resilience cascade. -/
def assistMsg : String :=
  aq "I~m here to help with car hire and related services. How can I assist you today?"

/-- First canned response of each context-pattern category. -/
def contextResponses : List (String × String) :=
  [("greeting", aq "Hello! Welcome to Prestige Car Hire Management. I~m here to help you with all your car hire needs. How can I assist you today?"),
   ("company_info", "Prestige Car Hire Management is a premier car rental service offering luxury and standard vehicles for hire. We provide exceptional customer service, flexible rental options, and a wide range of vehicles to suit your needs."),
   ("pricing", aq "Our pricing varies depending on the vehicle type, rental duration, and season. We offer competitive rates for daily, weekly, and monthly rentals. For specific pricing quotes, please visit the ~Contact Us~ page to get in touch with our team, or check the ~Our Fleet~ page to see vehicles and inquire about rates."),
   ("booking", aq "I~d be happy to help you with a booking! You can browse our available vehicles and make a booking through our website. Visit the ~Our Fleet~ page to see all available vehicles, or go to the ~Contact Us~ page to speak with our team directly. Would you like me to guide you to a specific page?"),
   ("contact", aq "You can reach us through our ~Contact Us~ page on the website, where you~ll find our contact form, email (info@prestigecarhire.co.uk), and phone number. Visit the Contact Us page to get in touch with our team - we~re here to help!"),
   ("vehicle_types", aq "We offer a wide range of vehicles including economy cars, sedans, SUVs, luxury vehicles, sports cars, and commercial vehicles. To see our full fleet, visit the ~Our Fleet~ page on our website where you can browse all available vehicles with details, photos, and specifications."),
   ("insurance", aq "We offer comprehensive insurance coverage options for all rentals. For detailed information about our insurance services, visit the ~Insurance Services~ page on our website. If you need to make a claim, you can use the ~Make a Claim~ page. Would you like directions to either of these pages?"),
   ("requirements", aq "To rent a vehicle, you~ll need: a valid driving license (held for at least 1-2 years depending on vehicle type), proof of identity, a credit or debit card for the security deposit, and you must meet our minimum age requirement (typically 21-25 years depending on vehicle category)."),
   ("payment", "We accept major credit and debit cards. A security deposit is required at the time of rental, which is typically held as a pre-authorization on your card and released after the vehicle is returned in good condition. The deposit amount varies by vehicle type."),
   ("cancellation", "Our cancellation policy allows for booking changes and cancellations. Cancellation terms depend on how far in advance you cancel and the type of booking. Generally, cancellations made 24-48 hours before pickup are fully refundable. For specific terms, please check your booking confirmation or contact us."),
   ("delivery", "We offer flexible pickup and return options. You can collect your vehicle from our office locations, or we can arrange delivery to airports, train stations, hotels, or other convenient locations (subject to availability and additional fees). Where would be most convenient for you?"),
   ("hours", aq "Our office hours are typically Monday to Friday 9 AM to 6 PM, and Saturday 9 AM to 4 PM. We~re closed on Sundays and bank holidays. However, we offer 24/7 roadside assistance for emergencies. For specific hours or holiday schedules, please contact us."),
   ("emergency", aq "In case of an emergency, breakdown, or accident, please contact our 24/7 emergency helpline immediately. We~ll provide roadside assistance, arrange recovery if needed, and help you get back on the road or provide a replacement vehicle. Your safety is our priority!"),
   ("testimonials", aq "We~re proud of our excellent customer reviews and testimonials! Visit the ~Testimonials~ page on our website to read what our customers say about our service quality, vehicle condition, and customer support. We~d love to add your positive experience too!"),
   ("goodbye", aq "You~re very welcome! I~m always here to help whenever you need assistance with car hire, bookings, or any questions. Feel free to reach out anytime. Have a wonderful day!"),
   ("general_help", aq "I can help guide you to the right pages on our website! Here~s what~s available: ~Our Fleet~ for browsing vehicles, ~Contact Us~ for inquiries, ~Insurance Services~ for coverage info, ~Make a Claim~ for accident claims, ~Car Sales~ for purchasing vehicles, ~Testimonials~ for reviews, and ~Our People~ to learn about our team. What would you like to explore?"),
   ("faq_general", "Rental duration is flexible - we offer daily, weekly, and monthly rentals. Minimum rental periods vary by vehicle type (typically 1-3 days). You can extend your rental if the vehicle is available, or return early (subject to our terms). What duration are you considering?"),
   ("vehicle_features", aq "Our vehicles come with various features depending on the category. Standard features often include air conditioning, Bluetooth connectivity, GPS navigation (in many vehicles), and modern safety features. Visit the ~Our Fleet~ page to see detailed specifications for each vehicle."),
   ("car_sales", aq "Great! We offer vehicles for purchase through our car sales service. Visit the ~Car Sales~ page on our website to browse vehicles available for purchase, view pricing, and submit a purchase inquiry. You can also contact us through the ~Contact Us~ page for more information."),
   ("car_sell", aq "We~d be happy to help you sell your vehicle! Visit the ~Car Sales~ page on our website where you can submit a sell request with details about your vehicle. Our team will provide a valuation and discuss options with you. You can also contact us through the ~Contact Us~ page."),
   ("make_claim", aq "If you~ve had an accident and need to make a claim, visit the ~Make a Claim~ page on our website. There you can submit your claim details and request a replacement vehicle. Our team will process your claim and arrange a suitable vehicle for you."),
   ("services", aq "We offer several services including car hire, accident replacement vehicles, insurance claim management, personal assistance, introducer support, and insurance services. Visit the ~What We Do~ page on our website to learn more about all our services, or check out ~Personal Assistance~, ~Introducer Support~, and ~Insurance Services~ pages for specific details.")]

/-- First entry of the `unclear` response list. -/
def unclearResponse : String :=
  "I want to make sure I understand correctly. Could you rephrase your question or provide more details?"

/-- First entry of the `default` response list. -/
def defaultResponse : String :=
  aq "I~m here to help with car hire and related services. Could you provide more details about what you~re looking for?"

/-- Reply for very short unclear messages. -/
def shortUnclearResponse : String :=
  aq "I~m here to help! Could you tell me more about what you need? For example, are you looking to book a vehicle, get pricing information, or have questions about our services?"

/-- Python `len(message.split())`. -/
def pyWordCount (s : String) : Nat :=
  ((splitOnChar ' ' (s.toList.map (fun c => if c.isWhitespace then ' ' else c))).filter
    (fun l => !l.isEmpty)).length

/-- Category dispatch of `_get_response_for_intent` after the empty-intent
normalisation. -/
def getResponseForIntentCore (intent message : String) : String :=
  match contextResponses.find? (fun p => p.1 == intent) with
  | some p => p.2
  | none =>
    if intent == "unclear" then
      if pyWordCount message ≤ 2 then shortUnclearResponse else unclearResponse
    else defaultResponse

/-- Model of `RuleBasedChatbot._get_response_for_intent`: the first canned
response of the category, the unclear replies, or the default reply; every
path returns a fixed non-empty string. -/
def getResponseForIntent (intent message : String) : String :=
  getResponseForIntentCore (if intent == "" then "general_help" else intent) message

structure RuleResult where
  message : String
  intent : String
  confidence : ℚ
  collectedData : StrDict
  isLead : Bool
  responseTimeMs : Nat
  deriving DecidableEq, Repr

/-- Intents treated as leads by `generate_response`. -/
def ruleLeadIntents : List String :=
  ["booking", "pricing", "contact", "vehicle_types", "delivery", "car_sales",
   "car_sell", "make_claim"]

/-- Model of `RuleBasedChatbot.generate_response`.  The keyword classifier is
the `classify` argument; `criticalFails` is the outer defensive handler, which
answers with the fixed literal.  Every path yields a complete result record,
matching the never-raises contract of the source. -/
def generateResponse (classify : String → String × ℚ) (criticalFails : Bool)
    (message : String) : RuleResult :=
  if criticalFails then ⟨assistMsg, "general_help", mkRat 3 10, [], false, 50⟩
  else if message == "" || pyStrip message == "" then
    ⟨aq "I~m here to help! Please let me know what you need assistance with.",
     "unclear", 0, [], false, 50⟩
  else
    let mc := pyStrip message
    let (intent, conf) := classify mc
    ⟨getResponseForIntent intent mc, intent, conf, [], ruleLeadIntents.contains intent, 50⟩

/-! ## Resilience wrapper (`process_message` and its fallbacks) -/

/-- Persisted `Conversation` record fields read by the wrapper and endpoint. -/
structure Conversation where
  sessionId : String
  userName : String
  userEmail : String
  userPhone : String
  status : String
  manualReplyActive : Bool
  collectedData : StrDict
  intentClassification : String
  messages : List (String × String)
  deriving DecidableEq, Repr

/-- The response dictionary returned by every tier of the wrapper. -/
structure AgentResponse where
  message : String
  responseType : String
  intentClassification : Option String
  confidenceScore : ℚ
  collectedData : StrDict
  currentForm : Option String
  currentStep : Option String
  isFormActive : Bool
  formCompleted : Bool
  requiresConfirmation : Bool
  userInfo : StrDict
  responseTimeMs : Nat
  fallbackUsed : Bool
  deriving DecidableEq, Repr

/-- Which tier of the cascade produced the response. -/
inductive Tier where
  | pipeline
  | ruleBased
  | ultimate
  deriving DecidableEq, Repr

/-- Observation record for one wrapper run: the response, the tier that
produced it, and how many completion-provider calls were attempted. -/
structure TurnResult where
  resp : AgentResponse
  tier : Tier
  providerAttempts : Nat
  deriving DecidableEq, Repr

/-- Outcomes of every fallible operation one `process_message` run can hit.
Each Boolean corresponds to one `try/except` block of the source and decides
whether that block raises; the LangGraph invocation is abstracted by its
resulting state (or an exception) together with the provider-related side
effects its nodes had on the agent. -/
structure ProcessOracle where
  userInfoReadFails : Bool
  formStateReadFails : Bool
  contactOutcome : ApiOutcome
  initialStateFails : Bool
  stateMessagesReadFails : Bool
  reload : ReloadOracle
  graphResult : Except String ConvState
  graphDisablesApi : Bool
  graphFailuresAdded : Nat
  graphProviderAttempts : Nat
  cleanFn : String → Except String String
  ruleGetFails : Bool
  ruleHistoryFails : Bool
  ruleClassify : String → String × ℚ
  ruleCriticalFails : Bool

/-- Model of `_ultimate_fallback_response`: a fixed literal dictionary. -/
def ultimateFallbackResponse (userInfo : StrDict) : AgentResponse :=
  ⟨assistMsg, "general", some "general", mkRat 3 10, [], none, none,
   false, false, false, userInfo, 0, true⟩

/-- Model of `_fallback_to_rule_based`: obtain the rule-based chatbot (its
construction failing falls through to the ultimate tier), generate the canned
response, merge collected data, and report a payload with no active form. -/
def fallbackToRuleBased (ag : AgentState) (o : ProcessOracle)
    (message : String) (conv : Conversation) (userInfo : StrDict) :
    AgentState × TurnResult :=
  if o.ruleGetFails then (ag, ⟨ultimateFallbackResponse userInfo, .ultimate, 0⟩)
  else
    let result := generateResponse o.ruleClassify o.ruleCriticalFails message
    let collected :=
      result.collectedData.foldl (fun d p => dictInsert d p.1 p.2) conv.collectedData
    let rc := result.collectedData
    let ui1 := if optTruthy (dictGet rc "name") && !(dictTruthy userInfo "name") then
        dictInsert userInfo "name" ((dictGet rc "name").getD "") else userInfo
    let ui2 := if optTruthy (dictGet rc "email") && !(dictTruthy ui1 "email") then
        dictInsert ui1 "email" ((dictGet rc "email").getD "") else ui1
    let ui3 := if optTruthy (dictGet rc "phone") && !(dictTruthy ui2 "phone") then
        dictInsert ui2 "phone" ((dictGet rc "phone").getD "") else ui2
    (ag,
     ⟨⟨result.message, "general", some result.intent, result.confidence, collected,
       none, none, false, false, false, ui3, result.responseTimeMs, true⟩,
      .ruleBased, 0⟩)

/-- Model of the wrapper-level `_clean_response`: an empty reply becomes the
fixed literal, otherwise the text passes through
`AgenticChatbotService._clean_response`, abstracted as the oracle `cleanFn`
since `process_message` re-validates whatever it returns. -/
def cleanResponseModel (cleanFn : String → Except String String) (raw : String) :
    Except String String :=
  if raw == "" then
    .ok (aq "I~m here to help with your car hire needs. How can I assist you?")
  else cleanFn raw

/-- Contact-extraction stage of `process_message`: when a contact field is
missing, run `_extract_contact_info` and merge what it found into the user
info; also report how many completion-provider calls this attempted. -/
def processContactStep (ag : AgentState) (o : ProcessOracle) (message : String)
    (conv : Conversation) : AgentState × StrDict × Nat :=
  let userInfo : StrDict :=
    if o.userInfoReadFails then []
    else [("name", conv.userName), ("email", conv.userEmail), ("phone", conv.userPhone)]
  let needContact := !(dictTruthy userInfo "name") || !(dictTruthy userInfo "phone") ||
    !(dictTruthy userInfo "email")
  if needContact then
    let r := extractContactInfo ag o.contactOutcome message
    let attempts := if !(message == "") && isClientAvailable ag then 1 else 0
    let ex := r.2
    let u1 := if optTruthy (dictGet ex "name") && !(dictTruthy userInfo "name") then
        dictInsert userInfo "name" ((dictGet ex "name").getD "") else userInfo
    let u2 := if optTruthy (dictGet ex "email") && !(dictTruthy u1 "email") then
        dictInsert u1 "email" ((dictGet ex "email").getD "") else u1
    let u3 := if optTruthy (dictGet ex "phone") && !(dictTruthy u2 "phone") then
        dictInsert u2 "phone" ((dictGet ex "phone").getD "") else u2
    (r.1, u3, attempts)
  else (ag, userInfo, 0)

/-- Tail of `process_message` after contact extraction: build the initial
state (its failure falls back), re-probe a disabled provider, check
availability, invoke the graph, and post-process its answer; every failure
lands in `_fallback_to_rule_based`. -/
def processCore (ag1 : AgentState) (o : ProcessOracle) (message : String)
    (conv : Conversation) (userInfo1 : StrDict) : AgentState × TurnResult :=
  if o.initialStateFails then
    fallbackToRuleBased ag1 o message conv userInfo1
  else
    let reloadStep :=
      if ag1.apiDisabled then reloadApiKey ag1 o.reload
      else (ag1, true)
    let ag2 := reloadStep.1
    if !reloadStep.2 then
      fallbackToRuleBased ag2 o message conv userInfo1
    else if !(isClientAvailable ag2) then
      fallbackToRuleBased ag2 o message conv userInfo1
    else
      let ag3 : AgentState :=
        { ag2 with apiDisabled := ag2.apiDisabled || o.graphDisablesApi,
                   apiFailureCount := ag2.apiFailureCount + o.graphFailuresAdded }
      let withGraphAttempts := fun (p : AgentState × TurnResult) =>
        (p.1, { p.2 with providerAttempts :=
                  p.2.providerAttempts + o.graphProviderAttempts })
      match o.graphResult with
      | .error _ => withGraphAttempts (fallbackToRuleBased ag3 o message conv userInfo1)
      | .ok fs =>
        if ag3.apiDisabled then
          withGraphAttempts (fallbackToRuleBased ag3 o message conv userInfo1)
        else
          let raw := fs.response.getD (aq "I~m processing your request...")
          match cleanResponseModel o.cleanFn raw with
          | .error _ =>
            withGraphAttempts (fallbackToRuleBased ag3 o message conv userInfo1)
          | .ok cleaned =>
            if cleaned == "" || pyStartsWith cleaned "I apologize" ||
                pyStartsWith cleaned (aq "I~m having trouble") then
              withGraphAttempts (fallbackToRuleBased ag3 o message conv userInfo1)
            else
              (ag3,
               ⟨⟨cleaned, fs.responseType, fs.intent, fs.confidence, fs.collectedData,
                 fs.currentForm, fs.currentStep, fs.isFormActive, fs.formCompleted,
                 fs.requiresConfirmation, fs.userInfo, 1000, false⟩,
                .pipeline, o.graphProviderAttempts⟩)

/-- Model of `LangGraphChatbotAgent.process_message`, the resilience wrapper.
Every stage failure recorded in the oracle lands in the handler the source
prescribes; the function is total, mirroring the never-raises contract.
Writes to the conversation record are not tracked (no claim reads them back
within a turn), and the initial-state contents feed only the abstracted graph
invocation. -/
def processMessage (ag : AgentState) (o : ProcessOracle)
    (sessionId message : String) (conv : Conversation) : AgentState × TurnResult :=
  let cs := processContactStep ag o message conv
  let r := processCore cs.1 o message conv cs.2.1
  (r.1, { r.2 with providerAttempts := r.2.providerAttempts + cs.2.2 })

/-- Sequential turns against the same agent instance: each entry carries the
turn oracle, the session id, the message, and the conversation snapshot. -/
def runTurns : AgentState → List (ProcessOracle × String × String × Conversation) →
    List TurnResult × AgentState
  | ag, [] => ([], ag)
  | ag, (o, sid, msg, conv) :: rest =>
    let r := processMessage ag o sid msg conv
    let tail := runTurns r.1 rest
    (r.2 :: tail.1, tail.2)

/-! ## Turn endpoint (`chatbot_message` of `views.py`) -/

/-- Outcome record of one endpoint call: message records created during the
turn (in creation order), the returned payload fields the claims are about,
and whether the agent pipeline was invoked at all. -/
structure EndpointResult where
  newMessages : List (String × String)
  respMessage : String
  silentBlock : Bool
  conversationCompleted : Bool
  clientError : Bool
  agentCalled : Bool
  statusOut : String
  deriving DecidableEq, Repr

/-- Conversation created by `get_or_create` when the session id is new:
model defaults of the Django model (`status='active'`,
`manual_reply_active=False`, empty collected data). -/
def freshConversation (sessionId : String) : Conversation :=
  ⟨sessionId, "", "", "", "active", false, [], "", []⟩

/-- Model of `Conversation.check_and_mark_completed`: the source never
auto-completes and returns `False` leaving the record unchanged. -/
def checkAndMarkCompleted (conv : Conversation) : Conversation × Bool := (conv, false)

/-- Model of the `chatbot_message` endpoint.  The defensive handlers around
the (total) `process_message` call and around persistence writes are not
modelled as separate failure points: every claim about this endpoint exits
before them or only reads the fields below. -/
def chatbotMessage (ag : AgentState) (o : ProcessOracle)
    (rawMessage sessionId : String) (existing : Option Conversation) :
    AgentState × EndpointResult :=
  let userMessage := pyStrip rawMessage
  if userMessage == "" || sessionId == "" then
    (ag, ⟨[], "", false, false, true, false, ""⟩)
  else
    let conv := match existing with
      | some c => c
      | none => freshConversation sessionId
    let conv := (checkAndMarkCompleted conv).1
    if conv.status == "completed" then
      (ag, ⟨[], "This conversation has ended. Please start a new conversation.",
            false, true, false, false, conv.status⟩)
    else
      let created : List (String × String) := [("user", userMessage)]
      if conv.manualReplyActive then
        (ag, ⟨created, "", true, false, false, false, conv.status⟩)
      else
        let r := processMessage ag o sessionId userMessage conv
        (r.1,
         ⟨created ++ [("assistant", r.2.resp.message)], r.2.resp.message,
          false, false, false, true, conv.status⟩)

/-! ## Shared fixtures for concrete runs -/

/-- Agent with a live client, not disabled, no failures. -/
def agOn : AgentState := ⟨true, false, 0⟩

/-- Agent whose provider has been hard-disabled. -/
def agOff : AgentState := ⟨true, true, 0⟩

/-- Blank pipeline state. -/
def stBase : ConvState :=
  ⟨"s", [], [], "", none, none, [], [], [], none, 0, none, false, false, false,
   false, none, "general", none⟩

/-- Conversation with no stored contact data, active, automatic mode. -/
def convW : Conversation := ⟨"s1", "", "", "", "active", false, [], "", []⟩

/-- Conversation in human-operator (manual) mode. -/
def convManual : Conversation := ⟨"s1", "", "", "", "active", true, [], "", []⟩

/-- Baseline turn oracle: no stage failures, a failing graph invocation, a
passing reload. -/
def oracleW : ProcessOracle :=
  ⟨false, false, .noContent, false, false, ⟨false, some "gsk_x", false⟩,
   .error "x", false, 0, 0, fun s => Except.ok s, false, false,
   fun _ => ("general_help", mkRat 1 2), false⟩

/-- Turn oracle whose capability re-probe fails (no key in settings). -/
def oracleReloadFail : ProcessOracle :=
  ⟨false, false, .noContent, false, false, ⟨false, none, false⟩,
   .error "x", false, 0, 0, fun s => Except.ok s, false, false,
   fun _ => ("general_help", mkRat 1 2), false⟩

/-- State amid the contact form asking for `full_name`. -/
def stC3 : ConvState :=
  { stBase with currentMessage := "J", currentForm := some "contact",
                currentStep := some "full_name",
                requiredFields := ["full_name", "email", "subject", "message"],
                intent := some "contact", confidence := 1, isFormActive := true }

/-- State with the single-field newsletter form fully collected. -/
def stC4 : ConvState :=
  { stBase with currentMessage := "hello", currentForm := some "newsletter_subscribe",
                collectedData := [("email", "a@b.com")], isFormActive := true }

/-- Provider reply classifying the message as the contact form. -/
def oC4 : ApiOutcome :=
  .content "\x7b\"intent\": \"contact\", \"confidence\": 0.9, \"reasoning\": \"r\"\x7d"

/-- Provider reply carrying an out-of-range confidence. -/
def oC6 : ApiOutcome :=
  .content "\x7b\"intent\": \"contact\", \"confidence\": 2.5, \"reasoning\": \"r\"\x7d"

/-- State at the start of a car-purchase form, nothing collected yet. -/
def stC5 : ConvState :=
  { stBase with currentMessage := "my name is Jane Doe, jane@example.com",
                currentForm := some "car_purchase",
                requiredFields := ["name", "email", "phone"],
                intent := some "car_purchase", confidence := 1, isFormActive := true }

/-- Provider reply extracting name and email from the C5 example message. -/
def oC5 : ApiOutcome :=
  .content "\x7b\"name\": \"Jane Doe\", \"email\": \"jane@example.com\", \"phone\": null\x7d"

/-- State with the newsletter form active and complete, for idempotence runs. -/
def stC9 : ConvState :=
  { stBase with currentMessage := "hello", currentForm := some "newsletter_subscribe",
                collectedData := [("email", "a@b.com")], isFormActive := true }

/-! ## Helper lemmas -/

lemma strBeqSymm (a b : String) : (a == b) = (b == a) := by
  by_cases h : a = b
  · simp [h]
  · simp [h, Ne.symm h]

lemma dictGet_dictInsert (d : StrDict) (k v k' : String) :
    dictGet (dictInsert d k v) k' = if k' == k then some v else dictGet d k' := by
  induction d with
  | nil =>
    cases hkk : (k' == k) with
    | true => simp [dictGet, dictInsert, List.find?, hkk, (strBeqSymm k k').trans hkk]
    | false => simp [dictGet, dictInsert, List.find?, hkk, (strBeqSymm k k').trans hkk]
  | cons p rest ih =>
    cases hp : (p.1 == k) with
    | true =>
      cases hkk : (k' == k) with
      | true => simp [dictGet, dictInsert, List.find?, hp, hkk, (strBeqSymm k k').trans hkk]
      | false =>
        have h2 : (p.1 == k') = false := by
          simp only [beq_iff_eq] at hp
          simp only [beq_eq_false_iff_ne] at hkk ⊢
          rw [hp]; exact fun hc => hkk hc.symm
        simp [dictGet, dictInsert, List.find?, hp, hkk,
              (strBeqSymm k k').trans hkk, h2]
    | false =>
      cases hpk : (p.1 == k') with
      | true =>
        have h1 : (k' == k) = false := by
          simp only [beq_iff_eq] at hpk
          simp only [beq_eq_false_iff_ne] at hp ⊢
          rw [← hpk]; exact fun hc => hp hc
        simp [dictGet, dictInsert, List.find?, hp, hpk, h1]
      | false =>
        simp only [dictInsert, hp, Bool.false_eq_true, if_false]
        simp only [dictGet, List.find?, hpk] at *
        exact ih

lemma mem_validatedExtraction (ft : String) (obj : JObj) (fns : List String)
    (p : String × String) (hp : p ∈ validatedExtraction ft obj fns) :
    validateFieldValue p.2 (fieldSchemaOf ft p.1) = true := by
  induction fns with
  | nil => simp [validatedExtraction] at hp
  | cons fn rest ih =>
    simp only [validatedExtraction] at hp
    split at hp
    · exact ih hp
    · split at hp
      · split at hp
        · next hv =>
            rcases List.mem_cons.mp hp with rfl | hmem
            · simpa using hv
            · exact ih hmem
        · exact ih hp
      · exact ih hp

lemma extractMultipleFields_valid (ag : AgentState) (o : ApiOutcome)
    (message : String) (fieldNames : List String) (formType : String)
    (collected : StrDict) (p : String × String)
    (hp : p ∈ (extractMultipleFields ag o message fieldNames formType collected).2) :
    validateFieldValue p.2 (fieldSchemaOf formType p.1) = true := by
  unfold extractMultipleFields at hp
  by_cases h1 : (message == "" || fieldNames.isEmpty || formType == "") = true
  · rw [if_pos h1] at hp; simp at hp
  · rw [if_neg h1] at hp
    by_cases h2 : (!isFormKey formType) = true
    · rw [if_pos h2] at hp; simp at hp
    · rw [if_neg h2] at hp
      by_cases h3 : (!isClientAvailable ag) = true
      · rw [if_pos h3] at hp; simp at hp
      · rw [if_neg h3] at hp
        cases o with
        | raised m => simp at hp
        | noContent => simp at hp
        | content t =>
          simp only at hp
          cases hej : extractJsonFromText (cleanResponseForJson (pyStrip t)) with
          | none => rw [hej] at hp; simp at hp
          | some obj =>
            rw [hej] at hp
            exact mem_validatedExtraction _ _ _ _ (by simpa using hp)

lemma commitExtracted_get (ex : StrDict) (missing : List String)
    (col : StrDict) (comp : List String) (k v : String)
    (h : dictGet (commitExtracted ex missing col comp).1 k = some v) :
    dictGet col k = some v ∨ (k, v) ∈ ex := by
  induction ex generalizing col comp with
  | nil => exact Or.inl h
  | cons p rest ih =>
    simp only [commitExtracted] at h
    split at h
    · rcases ih _ _ h with hi | hi
      · rw [dictGet_dictInsert] at hi
        by_cases hk : (k == p.1) = true
        · rw [if_pos hk] at hi
          have hkv : (k, v) = p := by
            have h1 := beq_iff_eq.mp hk
            have h2 : v = p.2 := by injection hi.symm
            cases p; simp_all
          exact Or.inr (by rw [hkv]; exact List.mem_cons_self _ _)
        · rw [if_neg (by simpa using hk)] at hi
          exact Or.inl hi
      · exact Or.inr (List.mem_cons_of_mem _ hi)
    · rcases ih _ _ h with hi | hi
      · exact Or.inl hi
      · exact Or.inr (List.mem_cons_of_mem _ hi)

lemma formRouterNode_get (ag : AgentState) (o : ApiOutcome) (st : ConvState)
    (fm k v : String)
    (hcf : st.currentForm = some fm) (hstep : st.currentStep = none)
    (hget : dictGet ((formRouterNode ag o st).2).collectedData k = some v) :
    dictGet st.collectedData k = some v ∨
      validateFieldValue v (fieldSchemaOf fm k) = true := by
  unfold formRouterNode at hget
  rw [hcf, hstep] at hget
  by_cases hmt : (missingFields (requiredOf fm) st.collectedData).isEmpty
  · simp only [hmt, if_true] at hget
    exact Or.inl hget
  · simp only [hmt, if_false] at hget
    by_cases hex : ((extractMultipleFields ag o (pyStrip st.currentMessage)
        (missingFields (requiredOf fm) st.collectedData) fm st.collectedData).2).isEmpty
    · simp only [hex] at hget
      exact Or.inl hget
    · simp only [hex] at hget
      simp only [Bool.not_false, if_true] at hget
      rcases commitExtracted_get _ _ _ _ _ _ hget with hi | hi
      · exact Or.inl hi
      · exact Or.inr (extractMultipleFields_valid _ _ _ _ _ _ (k, v) hi)

lemma classifyViaProvider_spec (ag : AgentState) (o : ApiOutcome) (st : ConvState) :
    ((classifyViaProvider ag o st).2.intent = some "general" ∧
     (classifyViaProvider ag o st).2.confidence = mkRat 3 10) ∨
    (∃ t obj c, o = .content t ∧
      extractJsonFromText (cleanResponseForJson (pyStrip t)) = some obj ∧
      pyFloat ((jGet obj "confidence").getD (.n (mkRat 1 2))) = some c ∧
      (∃ k, (classifyViaProvider ag o st).2.intent = some k ∧
        (isFormKey k = true ∨ k = "general")) ∧
      ((classifyViaProvider ag o st).2.confidence = c ∨
       (classifyViaProvider ag o st).2.confidence = mkRat 3 10)) := by
  unfold classifyViaProvider
  by_cases hca : (!(isClientAvailable ag)) = true
  · rw [if_pos hca]; left; exact ⟨rfl, rfl⟩
  · rw [if_neg hca]
    cases o with
    | raised m => left; exact ⟨rfl, rfl⟩
    | noContent => left; exact ⟨rfl, rfl⟩
    | content t =>
      simp only
      by_cases he : (pyStrip t == "") = true
      · rw [if_pos he]; left; exact ⟨rfl, rfl⟩
      · rw [if_neg he]
        cases hej : extractJsonFromText (cleanResponseForJson (pyStrip t)) with
        | none => simp only; left; exact ⟨rfl, rfl⟩
        | some obj =>
          simp only
          cases hpf : pyFloat ((jGet obj "confidence").getD (.n (mkRat 1 2))) with
          | none => simp only [hpf]; left; exact ⟨rfl, rfl⟩
          | some conf =>
            simp only [hpf]
            right
            refine ⟨t, obj, conf, rfl, hej, hpf, ?_, ?_⟩
            · cases hint : (jGet obj "intent").getD (.s "general") with
              | s s =>
                by_cases hv : (isFormKey s || s == "general") = true
                · exact ⟨s, by simp [hint, hv], by
                    rcases Bool.or_eq_true_iff.mp hv with h | h
                    · exact Or.inl h
                    · exact Or.inr (by simpa using h)⟩
                · exact ⟨"general", by simp [hint, hv], Or.inr rfl⟩
              | n q => exact ⟨"general", by simp [hint], Or.inr rfl⟩
              | b bv => exact ⟨"general", by simp [hint], Or.inr rfl⟩
              | null => exact ⟨"general", by simp [hint], Or.inr rfl⟩
            · cases hint : (jGet obj "intent").getD (.s "general") with
              | s s =>
                by_cases hv : (isFormKey s || s == "general") = true
                · exact Or.inl (by simp [hint, hv])
                · exact Or.inr (by simp [hint, hv])
              | n q => exact Or.inr (by simp [hint])
              | b bv => exact Or.inr (by simp [hint])
              | null => exact Or.inr (by simp [hint])

lemma getResponseForIntent_ne (intent message : String) :
    getResponseForIntent intent message ≠ "" := by
  unfold getResponseForIntent getResponseForIntentCore
  have hall : ∀ q ∈ contextResponses, q.2 ≠ "" := by decide
  cases hf : contextResponses.find?
      (fun p => p.1 == if intent == "" then "general_help" else intent) with
  | some p => exact hall p (List.mem_of_find?_eq_some hf)
  | none =>
    simp only
    repeat' split
    all_goals first
      | exact (by decide : shortUnclearResponse ≠ "")
      | exact (by decide : unclearResponse ≠ "")
      | exact (by decide : defaultResponse ≠ "")

lemma generateResponse_message_ne (classify : String → String × ℚ)
    (criticalFails : Bool) (message : String) :
    (generateResponse classify criticalFails message).message ≠ "" := by
  unfold generateResponse
  split
  · exact (by decide : assistMsg ≠ "")
  · split
    · exact (by decide :
        aq "I~m here to help! Please let me know what you need assistance with." ≠ "")
    · exact getResponseForIntent_ne _ _

lemma fallbackToRuleBased_spec (ag : AgentState) (o : ProcessOracle)
    (message : String) (conv : Conversation) (ui : StrDict) :
    (fallbackToRuleBased ag o message conv ui).2.resp.message ≠ "" ∧
    (fallbackToRuleBased ag o message conv ui).2.tier ≠ Tier.pipeline ∧
    ((fallbackToRuleBased ag o message conv ui).2.tier = Tier.ultimate →
      (fallbackToRuleBased ag o message conv ui).2.resp.message = assistMsg) ∧
    (fallbackToRuleBased ag o message conv ui).2.resp.currentForm = none ∧
    (fallbackToRuleBased ag o message conv ui).2.resp.currentStep = none ∧
    (fallbackToRuleBased ag o message conv ui).2.resp.isFormActive = false ∧
    (fallbackToRuleBased ag o message conv ui).2.resp.formCompleted = false ∧
    (fallbackToRuleBased ag o message conv ui).2.resp.requiresConfirmation = false ∧
    (fallbackToRuleBased ag o message conv ui).1 = ag ∧
    (fallbackToRuleBased ag o message conv ui).2.providerAttempts = 0 ∧
    (o.ruleGetFails = false →
      (fallbackToRuleBased ag o message conv ui).2.tier = Tier.ruleBased) := by
  unfold fallbackToRuleBased
  by_cases hg : o.ruleGetFails = true
  · rw [if_pos hg]
    exact ⟨(by decide : assistMsg ≠ ""), by simp, fun _ => rfl, rfl, rfl, rfl, rfl, rfl,
      rfl, rfl, fun h => by rw [h] at hg; cases hg⟩
  · rw [if_neg hg]
    exact ⟨generateResponse_message_ne _ _ _, by simp, by simp,
      rfl, rfl, rfl, rfl, rfl, rfl, rfl, fun _ => rfl⟩

lemma processCore_spec (ag1 : AgentState) (o : ProcessOracle) (message : String)
    (conv : Conversation) (ui : StrDict) :
    (processCore ag1 o message conv ui).2.resp.message ≠ "" ∧
    ((processCore ag1 o message conv ui).2.tier = Tier.ultimate →
      (processCore ag1 o message conv ui).2.resp.message = assistMsg) ∧
    ((processCore ag1 o message conv ui).2.tier = Tier.pipeline →
      ∃ fs, o.graphResult = Except.ok fs) := by
  unfold processCore
  simp only
  repeat' split
  all_goals first
    | (exact ⟨(fallbackToRuleBased_spec _ _ _ _ _).1,
        fun h => (fallbackToRuleBased_spec _ _ _ _ _).2.2.1 h,
        fun h => absurd h (fallbackToRuleBased_spec _ _ _ _ _).2.1⟩)
    | (rename_i hcl
       simp only [Bool.or_eq_true, not_or] at hcl
       exact ⟨by simpa using hcl.1.1, by simp, fun _ => ⟨_, by assumption⟩⟩)

lemma extractContactInfo_fst_of_disabled (ag : AgentState) (o : ApiOutcome)
    (m : String) (hd : ag.apiDisabled = true) :
    (extractContactInfo ag o m).1 = ag := by
  unfold extractContactInfo
  have : isClientAvailable ag = false := by simp [isClientAvailable, hd]
  split
  · rfl
  · simp [this]

lemma processContactStep_fst_of_disabled (ag : AgentState) (o : ProcessOracle)
    (m : String) (conv : Conversation) (hd : ag.apiDisabled = true) :
    (processContactStep ag o m conv).1 = ag := by
  unfold processContactStep
  dsimp only
  repeat' split
  all_goals first
    | exact extractContactInfo_fst_of_disabled _ _ _ hd
    | rfl

lemma processContactStep_attempts_of_disabled (ag : AgentState) (o : ProcessOracle)
    (m : String) (conv : Conversation) (hd : ag.apiDisabled = true) :
    (processContactStep ag o m conv).2.2 = 0 := by
  have hca : isClientAvailable ag = false := by simp [isClientAvailable, hd]
  unfold processContactStep
  dsimp only
  repeat' split
  all_goals simp_all

lemma reloadApiKey_snd_const (ag ag' : AgentState) (ro : ReloadOracle) :
    (reloadApiKey ag ro).2 = (reloadApiKey ag' ro).2 := by
  unfold reloadApiKey
  repeat' split
  all_goals rfl

lemma reloadApiKey_disabled_of_fails (ag : AgentState) (ro : ReloadOracle)
    (hd : ag.apiDisabled = true) (hf : (reloadApiKey ag ro).2 = false) :
    (reloadApiKey ag ro).1.apiDisabled = true := by
  by_cases h1 : ro.settingsReadFails = true
  · simpa [reloadApiKey, h1] using hd
  · cases hk : ro.apiKey with
    | none => simp [reloadApiKey, h1, hk]
    | some key =>
      by_cases h2 : ro.clientInitFails = true
      · simp [reloadApiKey, h1, hk, h2]
      · by_cases h3 : pyStartsWith key "gsk_" = true
        · exfalso
          simp [reloadApiKey, h1, hk, h2, h3] at hf
        · simp [reloadApiKey, h1, hk, h2, h3]

lemma processCore_disabled (ag1 : AgentState) (o : ProcessOracle) (m : String)
    (conv : Conversation) (ui : StrDict)
    (hd : ag1.apiDisabled = true) (hr : reloadFails o.reload = true) :
    (processCore ag1 o m conv ui).2.providerAttempts = 0 ∧
    (processCore ag1 o m conv ui).2.tier ≠ Tier.pipeline ∧
    (o.ruleGetFails = false → (processCore ag1 o m conv ui).2.tier = Tier.ruleBased) ∧
    (processCore ag1 o m conv ui).1.apiDisabled = true := by
  have hsnd : (reloadApiKey ag1 o.reload).2 = false := by
    rw [reloadApiKey_snd_const ag1 ⟨true, true, 0⟩]
    unfold reloadFails at hr
    simpa using hr
  unfold processCore
  by_cases hi : o.initialStateFails = true
  · rw [if_pos hi]
    exact ⟨(fallbackToRuleBased_spec _ _ _ _ _).2.2.2.2.2.2.2.2.2.1,
      (fallbackToRuleBased_spec _ _ _ _ _).2.1,
      fun h => (fallbackToRuleBased_spec _ _ _ _ _).2.2.2.2.2.2.2.2.2.2 h,
      by rw [(fallbackToRuleBased_spec _ _ _ _ _).2.2.2.2.2.2.2.2.1]; exact hd⟩
  · rw [if_neg hi]
    simp only [hd, if_true, hsnd, Bool.not_false]
    exact ⟨(fallbackToRuleBased_spec _ _ _ _ _).2.2.2.2.2.2.2.2.2.1,
      (fallbackToRuleBased_spec _ _ _ _ _).2.1,
      fun h => (fallbackToRuleBased_spec _ _ _ _ _).2.2.2.2.2.2.2.2.2.2 h,
      by rw [(fallbackToRuleBased_spec _ _ _ _ _).2.2.2.2.2.2.2.2.1]
         exact reloadApiKey_disabled_of_fails _ _ hd hsnd⟩

lemma processMessage_disabled (ag : AgentState) (o : ProcessOracle)
    (sid msg : String) (conv : Conversation)
    (hd : ag.apiDisabled = true) (hr : reloadFails o.reload = true) :
    (processMessage ag o sid msg conv).2.providerAttempts = 0 ∧
    (processMessage ag o sid msg conv).2.tier ≠ Tier.pipeline ∧
    (o.ruleGetFails = false →
      (processMessage ag o sid msg conv).2.tier = Tier.ruleBased) ∧
    (processMessage ag o sid msg conv).1.apiDisabled = true := by
  unfold processMessage
  dsimp only
  have h1 := processContactStep_fst_of_disabled ag o msg conv hd
  have h2 := processContactStep_attempts_of_disabled ag o msg conv hd
  have hd1 : (processContactStep ag o msg conv).1.apiDisabled = true := by
    rw [h1]; exact hd
  have hcore := processCore_disabled (processContactStep ag o msg conv).1 o msg conv
    (processContactStep ag o msg conv).2.1 hd1 hr
  refine ⟨?_, hcore.2.1, hcore.2.2.1, hcore.2.2.2⟩
  rw [h2]
  simpa using hcore.1

lemma runTurns_disabled (ag : AgentState)
    (turns : List (ProcessOracle × String × String × Conversation))
    (hd : ag.apiDisabled = true)
    (hrel : ∀ t ∈ turns, reloadFails t.1.reload = true)
    (hrg : ∀ t ∈ turns, t.1.ruleGetFails = false) :
    (∀ r ∈ (runTurns ag turns).1,
      r.providerAttempts = 0 ∧ r.tier = Tier.ruleBased) ∧
    (runTurns ag turns).2.apiDisabled = true := by
  induction turns generalizing ag with
  | nil => exact ⟨fun r hr => absurd hr (by simp [runTurns]), hd⟩
  | cons t rest ih =>
    obtain ⟨o, sid, msg, conv⟩ := t
    have hthis := processMessage_disabled ag o sid msg conv hd
      (hrel _ (List.mem_cons_self _ _))
    have hnext := ih (processMessage ag o sid msg conv).1 hthis.2.2.2
      (fun t ht => hrel t (List.mem_cons_of_mem _ ht))
      (fun t ht => hrg t (List.mem_cons_of_mem _ ht))
    refine ⟨?_, ?_⟩
    · intro r hmem
      simp only [runTurns] at hmem
      rcases List.mem_cons.mp hmem with rfl | hmem2
      · exact ⟨hthis.1, hthis.2.2.1 (hrg _ (List.mem_cons_self _ _))⟩
      · exact hnext.1 r hmem2
    · simpa [runTurns] using hnext.2

/-! ## Claim theorems -/

/-- C1: for every agent state, every combination of stage outcomes (including
an exception in any inner stage: contact extraction, state building, reload,
graph invocation, response cleaning, rule-based construction), and every
session, message and conversation, `process_message` returns a well-formed
response record whose message field is a non-empty string and never
propagates an exception (the model is a total function assembled from the
per-stage handlers of the source); the ultimate tier answers with the fixed
fallback string, and the full-pipeline tier answers only when the graph
invocation succeeded, so answers degrade along pipeline, then rule-based
responder, then the fixed ultimate fallback. -/
theorem claim1_wrapper_resilience (ag : AgentState) (o : ProcessOracle)
    (sid msg : String) (conv : Conversation) :
    (processMessage ag o sid msg conv).2.resp.message ≠ "" ∧
    ((processMessage ag o sid msg conv).2.tier = Tier.ultimate →
      (processMessage ag o sid msg conv).2.resp.message = assistMsg) ∧
    ((processMessage ag o sid msg conv).2.tier = Tier.pipeline →
      ∃ fs, o.graphResult = Except.ok fs) := by
  unfold processMessage
  exact ⟨(processCore_spec _ _ _ _ _).1, (processCore_spec _ _ _ _ _).2.1,
    (processCore_spec _ _ _ _ _).2.2⟩

/-- C2: one authentication-class provider error disables the provider at
once, and a third accumulated non-authentication failure disables it; while
disabled every capability check reports unavailable, and every subsequent
turn whose capability re-probe fails is answered by the rule-based responder
with zero completion-provider calls and leaves the provider disabled; a
successful re-probe makes the client available again. -/
theorem claim2_provider_disable_monotonicity :
    (∀ (ag : AgentState) (m : String), isAuthError m = true →
      (markApiFailure ag m).apiDisabled = true) ∧
    (∀ (ag : AgentState) (m : String), isAuthError m = false →
      2 ≤ ag.apiFailureCount → (markApiFailure ag m).apiDisabled = true) ∧
    (∀ ag : AgentState, ag.apiDisabled = true → isClientAvailable ag = false) ∧
    (∀ (ag : AgentState)
       (turns : List (ProcessOracle × String × String × Conversation)),
      ag.apiDisabled = true →
      (∀ t ∈ turns, reloadFails t.1.reload = true) →
      (∀ t ∈ turns, t.1.ruleGetFails = false) →
      (∀ r ∈ (runTurns ag turns).1,
        r.providerAttempts = 0 ∧ r.tier = Tier.ruleBased) ∧
      (runTurns ag turns).2.apiDisabled = true) ∧
    (∀ (ag : AgentState) (ro : ReloadOracle), (reloadApiKey ag ro).2 = true →
      isClientAvailable (reloadApiKey ag ro).1 = true) := by
  refine ⟨?_, ?_, ?_, ?_, ?_⟩
  · intro ag m h
    unfold markApiFailure
    rw [if_pos h]
    by_cases hd : ag.apiDisabled = true
    · simp [hd]
    · simp only [Bool.not_eq_true] at hd
      simp [hd]
  · intro ag m hna hcnt
    unfold markApiFailure
    rw [if_neg (by simp [hna])]
    dsimp only
    rw [if_pos (by omega)]
  · intro ag h
    simp [isClientAvailable, h]
  · exact runTurns_disabled
  · intro ag ro h
    by_cases h1 : ro.settingsReadFails = true
    · simp [reloadApiKey, h1] at h
    · cases hk : ro.apiKey with
      | none => simp [reloadApiKey, h1, hk] at h
      | some key =>
        by_cases h2 : ro.clientInitFails = true
        · simp [reloadApiKey, h1, hk, h2] at h
        · by_cases h3 : pyStartsWith key "gsk_" = true
          · simp [reloadApiKey, isClientAvailable, h1, hk, h2, h3]
          · simp [reloadApiKey, h1, hk, h2, h3] at h

/-- C2 witness: the disable rules and the disabled-turn routing applied at
concrete inputs (an authentication error, a third counted failure, a
disabled agent whose re-probe has no key, and a successful re-probe). -/
theorem claim2_provider_disable_monotonicity_witness :
    (markApiFailure agOn "Error code: 401 unauthorized").apiDisabled = true ∧
    (markApiFailure ⟨true, false, 2⟩ "timeout").apiDisabled = true ∧
    isClientAvailable agOff = false ∧
    (runTurns agOff [(oracleReloadFail, "s1", "hello", convW)]).2.apiDisabled = true ∧
    isClientAvailable (reloadApiKey agOff ⟨false, some "gsk_abc", false⟩).1 = true := by
  have hrel : ∀ t ∈ [(oracleReloadFail, "s1", "hello", convW)],
      reloadFails t.1.reload = true := by
    intro t ht
    rw [List.mem_singleton] at ht
    subst ht
    decide
  have hrg : ∀ t ∈ [(oracleReloadFail, "s1", "hello", convW)],
      t.1.ruleGetFails = false := by
    intro t ht
    rw [List.mem_singleton] at ht
    subst ht
    rfl
  exact ⟨claim2_provider_disable_monotonicity.1 agOn _ (by decide),
    claim2_provider_disable_monotonicity.2.1 ⟨true, false, 2⟩ "timeout"
      (by decide) (by decide),
    claim2_provider_disable_monotonicity.2.2.1 agOff rfl,
    (claim2_provider_disable_monotonicity.2.2.2.1 agOff
      [(oracleReloadFail, "s1", "hello", convW)] rfl hrel hrg).2,
    claim2_provider_disable_monotonicity.2.2.2.2 agOff
      ⟨false, some "gsk_abc", false⟩ (by decide)⟩

/-- C3 counterexample: the claim fails on the single-field extraction path.
With the contact form asking for `full_name` (schema `min_length = 2`), a
provider reply of `"J"` fails `_validate_field_value`, yet
`data_extractor_node` stores it in `collected_data` and removes the field
from `required_fields`: `_extract_field_value` validates only email and
phone types on its success path. -/
theorem claim3_counterexample :
    validateFieldValue "J" (fieldSchemaOf "contact" "full_name") = false ∧
    dictGet (dataExtractorNode agOn (.content "J") .noContent stC3).2.collectedData
        "full_name" = some "J" ∧
    ((dataExtractorNode agOn (.content "J") .noContent stC3).2.requiredFields.contains
        "full_name") = false := by
  decide

/-- C3 (amended): the multi-field extraction path never stores a value that
fails its schema rule — every pair returned by
`_extract_multiple_fields_from_message` has passed `_validate_field_value`,
and every entry of `collected_data` after the router's collecting step is
either an old entry or a validated one.  The single-field path validates only
email patterns and phone digit counts, so values failing string-length,
integer-range or option-membership rules can be stored by it (see the
counterexample). -/
theorem claim3_multi_field_validation_soundness :
    (∀ (ag : AgentState) (o : ApiOutcome) (message : String)
       (fieldNames : List String) (formType : String) (collected : StrDict)
       (p : String × String),
       p ∈ (extractMultipleFields ag o message fieldNames formType collected).2 →
       validateFieldValue p.2 (fieldSchemaOf formType p.1) = true) ∧
    (∀ (ag : AgentState) (o : ApiOutcome) (st : ConvState) (fm k v : String),
       st.currentForm = some fm → st.currentStep = none →
       dictGet ((formRouterNode ag o st).2).collectedData k = some v →
       dictGet st.collectedData k = some v ∨
         validateFieldValue v (fieldSchemaOf fm k) = true) :=
  ⟨extractMultipleFields_valid, formRouterNode_get⟩

/-- C3 witness: the router-preservation half applied to a concrete complete
newsletter session. -/
theorem claim3_multi_field_validation_soundness_witness :
    dictGet stC9.collectedData "email" = some "a@b.com" ∨
      validateFieldValue "a@b.com" (fieldSchemaOf "newsletter_subscribe" "email") = true :=
  claim3_multi_field_validation_soundness.2 agOff .noContent stC9
    "newsletter_subscribe" "email" "a@b.com" rfl rfl (by decide)

/-- C4 counterexample: with the newsletter form active and fully collected
and the non-switch message `"hello"`, the classifier still short-circuits to
the active form with confidence 1.0 — even though normal classification of
the same message and provider reply (no active form) returns `"contact"` —
so a fully collected form does not make classification proceed normally. -/
theorem claim4_counterexample :
    missingFields (requiredOf "newsletter_subscribe") stC4.collectedData = [] ∧
    (intentClassifierNode agOn oC4 stC4).2.intent = some "newsletter_subscribe" ∧
    (intentClassifierNode agOn oC4 stC4).2.confidence = 1 ∧
    (intentClassifierNode agOn oC4
        { stC4 with currentForm := none }).2.intent = some "contact" := by
  decide

/-- C4 (amended): whenever a form is active and either the message does not
resemble a task-switch request under the keyword heuristic or at least one
required field is still missing, the classifier returns the active form with
confidence exactly 1.0 and leaves the agent untouched (no provider call);
classification proceeds normally only when the active form is fully
collected AND the message resembles a switch request. -/
theorem claim4_active_form_short_circuit (ag : AgentState) (o : ApiOutcome)
    (st : ConvState) (cf : String)
    (hcf : st.currentForm = some cf)
    (h : looksLikeNewIntent st.currentMessage = false ∨
      missingFields (requiredOf cf) st.collectedData ≠ []) :
    (intentClassifierNode ag o st).1 = ag ∧
    (intentClassifierNode ag o st).2.intent = some cf ∧
    (intentClassifierNode ag o st).2.confidence = 1 := by
  unfold intentClassifierNode
  rw [hcf]
  by_cases hl : looksLikeNewIntent st.currentMessage = true
  · have hmiss : missingFields (requiredOf cf) st.collectedData ≠ [] := by
      rcases h with h | h
      · rw [hl] at h; simp at h
      · exact h
    simp only [hl, if_true]
    rw [if_pos (by simpa [List.isEmpty_iff] using hmiss)]
    simp
  · simp only [Bool.not_eq_true] at hl
    simp only [hl, Bool.false_eq_true, if_false]
    simp

/-- C4 witness: the short-circuit applied to the concrete complete newsletter
session with a non-switch message. -/
theorem claim4_active_form_short_circuit_witness :
    (intentClassifierNode agOn oC4 stC4).1 = agOn ∧
    (intentClassifierNode agOn oC4 stC4).2.intent = some "newsletter_subscribe" ∧
    (intentClassifierNode agOn oC4 stC4).2.confidence = 1 :=
  claim4_active_form_short_circuit agOn oC4 stC4 "newsletter_subscribe" rfl
    (Or.inl (by decide))

/-- C5 counterexample: processing the example message against the
`car_purchase` form (required `name`, `email`, `phone`) with the provider
extracting name and email does yield the claimed collected data and
remaining fields, but the next prompt does not carry a "2 of 3 completed"
marker — one remaining field selects the distinct final-field wording. -/
theorem claim5_counterexample :
    (formRouterNode agOn oC5 stC5).2.collectedData =
      [("name", "Jane Doe"), ("email", "jane@example.com")] ∧
    (formRouterNode agOn oC5 stC5).2.requiredFields = ["phone"] ∧
    containsSub
      (((questionGeneratorNode (formRouterNode agOn oC5 stC5).2).response).getD "")
      "2 of 3 completed" = false := by
  decide

/-- C5 (amended): the example turn yields
`collected_data = [name ↦ "Jane Doe", email ↦ "jane@example.com"]` and
`required_fields = ["phone"]`, and the prompt for the next turn requests the
phone number with the final-field wording
"Almost there! … (just 1 more field needed)"; the "(n of total completed)"
marker is used only while more than one field remains. -/
theorem claim5_example_turn_final_field_prompt :
    (formRouterNode agOn oC5 stC5).2.collectedData =
      [("name", "Jane Doe"), ("email", "jane@example.com")] ∧
    (formRouterNode agOn oC5 stC5).2.requiredFields = ["phone"] ∧
    (questionGeneratorNode (formRouterNode agOn oC5 stC5).2).response =
      some "Almost there! And your phone number for any immediate questions? (just 1 more field needed)" := by
  decide

/-- C6 counterexample: a provider reply whose JSON reports the valid label
`"contact"` with confidence 2.5 makes the classifier terminate with that
confidence, which lies outside [0, 1] — the parsed value is propagated
without clamping. -/
theorem claim6_counterexample :
    (intentClassifierNode agOn oC6 stBase).2.intent = some "contact" ∧
    isFormKey "contact" = true ∧
    (intentClassifierNode agOn oC6 stBase).2.confidence = mkRat 5 2 ∧
    ¬((intentClassifierNode agOn oC6 stBase).2.confidence ≤ 1) := by
  decide

/-- C6 (amended): for every input and provider outcome the classifier
terminates with a label that is a form-catalog key or `"general"` (provided
the active form, if any, is a catalog key), and its confidence lies in
[0, 1] on every path except the successful-parse path, where it equals the
provider-reported value verbatim, which may fall outside that interval. -/
theorem claim6_label_valid_confidence_unclamped (ag : AgentState)
    (o : ApiOutcome) (st : ConvState)
    (hform : st.currentForm = none ∨
      ∃ f, st.currentForm = some f ∧ isFormKey f = true) :
    (∃ k, (intentClassifierNode ag o st).2.intent = some k ∧
      (isFormKey k = true ∨ k = "general")) ∧
    ((0 ≤ (intentClassifierNode ag o st).2.confidence ∧
      (intentClassifierNode ag o st).2.confidence ≤ 1) ∨
     ∃ t obj c, o = .content t ∧
       extractJsonFromText (cleanResponseForJson (pyStrip t)) = some obj ∧
       pyFloat ((jGet obj "confidence").getD (.n (mkRat 1 2))) = some c ∧
       (intentClassifierNode ag o st).2.confidence = c) := by
  have hclassify : ∀ (_ : intentClassifierNode ag o st = classifyViaProvider ag o st),
      (∃ k, (intentClassifierNode ag o st).2.intent = some k ∧
        (isFormKey k = true ∨ k = "general")) ∧
      ((0 ≤ (intentClassifierNode ag o st).2.confidence ∧
        (intentClassifierNode ag o st).2.confidence ≤ 1) ∨
       ∃ t obj c, o = .content t ∧
         extractJsonFromText (cleanResponseForJson (pyStrip t)) = some obj ∧
         pyFloat ((jGet obj "confidence").getD (.n (mkRat 1 2))) = some c ∧
         (intentClassifierNode ag o st).2.confidence = c) := by
    intro h
    rw [h]
    rcases classifyViaProvider_spec ag o st with ⟨hi, hc⟩ |
      ⟨t, obj, c, ho, hej, hpf, ⟨k, hk, hv⟩, hcc⟩
    · exact ⟨⟨"general", hi, Or.inr rfl⟩,
        Or.inl ⟨by rw [hc]; decide, by rw [hc]; decide⟩⟩
    · refine ⟨⟨k, hk, hv⟩, ?_⟩
      rcases hcc with hcc | hcc
      · exact Or.inr ⟨t, obj, c, ho, hej, hpf, hcc⟩
      · exact Or.inl ⟨by rw [hcc]; decide, by rw [hcc]; decide⟩
  rcases hform with hnone | ⟨f, hf, hkey⟩
  · exact hclassify (by unfold intentClassifierNode; rw [hnone])
  · by_cases hl : looksLikeNewIntent st.currentMessage = true
    · by_cases hm : (missingFields (requiredOf f) st.collectedData).isEmpty
      · exact hclassify (by
          unfold intentClassifierNode; rw [hf]
          simp [hl, hm])
      · have hsc : (intentClassifierNode ag o st).2.intent = some f ∧
            (intentClassifierNode ag o st).2.confidence = 1 := by
          unfold intentClassifierNode; rw [hf]
          simp [hl, hm]
        exact ⟨⟨f, hsc.1, Or.inl hkey⟩,
          Or.inl ⟨by rw [hsc.2]; norm_num, by rw [hsc.2]⟩⟩
    · have hsc : (intentClassifierNode ag o st).2.intent = some f ∧
          (intentClassifierNode ag o st).2.confidence = 1 := by
        unfold intentClassifierNode; rw [hf]
        simp only [Bool.not_eq_true] at hl
        simp [hl]
      exact ⟨⟨f, hsc.1, Or.inl hkey⟩,
        Or.inl ⟨by rw [hsc.2]; norm_num, by rw [hsc.2]⟩⟩

/-- C6 witness: the amended contract at a concrete formless state with an
empty provider reply. -/
theorem claim6_label_valid_confidence_unclamped_witness :
    (∃ k, (intentClassifierNode agOn .noContent stBase).2.intent = some k ∧
      (isFormKey k = true ∨ k = "general")) ∧
    ((0 ≤ (intentClassifierNode agOn .noContent stBase).2.confidence ∧
      (intentClassifierNode agOn .noContent stBase).2.confidence ≤ 1) ∨
     ∃ t obj c, ApiOutcome.noContent = ApiOutcome.content t ∧
       extractJsonFromText (cleanResponseForJson (pyStrip t)) = some obj ∧
       pyFloat ((jGet obj "confidence").getD (.n (mkRat 1 2))) = some c ∧
       (intentClassifierNode agOn .noContent stBase).2.confidence = c) :=
  claim6_label_valid_confidence_unclamped agOn .noContent stBase (Or.inl rfl)

/-- C7: when no form is active, every provider failure (raised exception or
empty reply) and every reply from which no JSON object can be extracted
makes the intent classifier terminate with the label `"general"` and a
confidence of at most 0.3; the model is a total function, matching the
never-raises behaviour of the source. -/
theorem claim7_classifier_failure_returns_general (ag : AgentState)
    (o : ApiOutcome) (st : ConvState)
    (hform : st.currentForm = none)
    (hfail : (∃ m, o = .raised m) ∨ o = .noContent ∨
      (∃ t, o = .content t ∧ (pyStrip t = "" ∨
        extractJsonFromText (cleanResponseForJson (pyStrip t)) = none))) :
    (intentClassifierNode ag o st).2.intent = some "general" ∧
    (intentClassifierNode ag o st).2.confidence ≤ mkRat 3 10 := by
  unfold intentClassifierNode
  rw [hform]
  unfold classifyViaProvider
  simp only [classifierFallbackState]
  by_cases hca : isClientAvailable ag
  · simp only [hca, Bool.not_true, if_false]
    rcases hfail with ⟨m, rfl⟩ | rfl | ⟨t, rfl, hrest⟩
    · simp
    · simp
    · rcases hrest with hempty | hnone
      · simp [hempty]
      · by_cases he : pyStrip t = ""
        · simp [he]
        · simp [he, hnone]
  · simp only [Bool.not_eq_true] at hca
    simp [hca]

/-- C7 witness: a raised provider call at a concrete formless state. -/
theorem claim7_classifier_failure_returns_general_witness :
    (intentClassifierNode agOn (.raised "boom") stBase).2.intent = some "general" ∧
    (intentClassifierNode agOn (.raised "boom") stBase).2.confidence ≤ mkRat 3 10 :=
  claim7_classifier_failure_returns_general agOn (.raised "boom") stBase rfl
    (Or.inl ⟨"boom", rfl⟩)

/-- C8: when `manual_reply_active` is true for an (active, hence
non-completed) conversation, a turn-endpoint call with a non-empty message
persists exactly one new message record, of type `user`, creates no
assistant message, never invokes the agent pipeline, and returns an empty
message with the `silent_block` flag set. -/
theorem claim8_manual_mode_silence (ag : AgentState) (o : ProcessOracle)
    (rawMessage sessionId : String) (conv : Conversation)
    (hm : conv.manualReplyActive = true)
    (hs : conv.status ≠ "completed")
    (hne : pyStrip rawMessage ≠ "")
    (hsid : sessionId ≠ "") :
    (chatbotMessage ag o rawMessage sessionId (some conv)).2.newMessages =
      [("user", pyStrip rawMessage)] ∧
    (chatbotMessage ag o rawMessage sessionId (some conv)).2.respMessage = "" ∧
    (chatbotMessage ag o rawMessage sessionId (some conv)).2.silentBlock = true ∧
    (chatbotMessage ag o rawMessage sessionId (some conv)).2.agentCalled = false := by
  have h1 : (pyStrip rawMessage == "") = false := by simpa using hne
  have h2 : (sessionId == "") = false := by simpa using hsid
  have h3 : (conv.status == "completed") = false := by simpa using hs
  unfold chatbotMessage checkAndMarkCompleted
  simp [h1, h2, h3, hm]

/-- C8 witness: the manual-mode turn at a concrete conversation. -/
theorem claim8_manual_mode_silence_witness :
    (chatbotMessage agOn oracleW "hello" "s1" (some convManual)).2.newMessages =
      [("user", pyStrip "hello")] ∧
    (chatbotMessage agOn oracleW "hello" "s1" (some convManual)).2.respMessage = "" ∧
    (chatbotMessage agOn oracleW "hello" "s1" (some convManual)).2.silentBlock = true ∧
    (chatbotMessage agOn oracleW "hello" "s1" (some convManual)).2.agentCalled = false :=
  claim8_manual_mode_silence agOn oracleW "hello" "s1" convManual rfl
    (by decide) (by decide) (by decide)

/-- C9: when a form is active with no targeted step, its required list is the
consistent view of its collected data, and the multi-field extraction of the
turn returns the empty map, the router leaves both `collected_data` and
`required_fields` unchanged. -/
theorem claim9_empty_extraction_idempotent (ag : AgentState) (o : ApiOutcome)
    (st : ConvState) (f : String)
    (hcf : st.currentForm = some f) (hstep : st.currentStep = none)
    (hreq : st.requiredFields = missingFields (requiredOf f) st.collectedData)
    (hempty : (extractMultipleFields ag o (pyStrip st.currentMessage)
        (missingFields (requiredOf f) st.collectedData) f st.collectedData).2 = []) :
    (formRouterNode ag o st).2.collectedData = st.collectedData ∧
    (formRouterNode ag o st).2.requiredFields = st.requiredFields := by
  unfold formRouterNode
  rw [hcf, hstep]
  by_cases hmt : (missingFields (requiredOf f) st.collectedData).isEmpty
  · simp only [hmt, if_true]
    exact ⟨trivial, by rw [hreq, List.isEmpty_iff.mp hmt]⟩
  · simp only [hmt, if_false, hempty, List.isEmpty_nil, Bool.not_true]
    simp [hreq]

/-- C9 witness: a disabled provider yields an empty extraction, and the
complete newsletter session is left untouched. -/
theorem claim9_empty_extraction_idempotent_witness :
    stC9.currentForm = some "newsletter_subscribe" ∧
    stC9.currentStep = none ∧
    stC9.requiredFields =
      missingFields (requiredOf "newsletter_subscribe") stC9.collectedData ∧
    (extractMultipleFields agOff .noContent (pyStrip stC9.currentMessage)
      (missingFields (requiredOf "newsletter_subscribe") stC9.collectedData)
      "newsletter_subscribe" stC9.collectedData).2 = [] ∧
    ((formRouterNode agOff .noContent stC9).2.collectedData = stC9.collectedData ∧
     (formRouterNode agOff .noContent stC9).2.requiredFields = stC9.requiredFields) :=
  ⟨rfl, rfl, by decide, by decide,
   claim9_empty_extraction_idempotent agOff .noContent stC9 "newsletter_subscribe"
     rfl rfl (by decide) (by decide)⟩

/-- C10: every turn answered by `_fallback_to_rule_based` — for every agent
state, oracle, message, conversation (including one whose persisted state
holds a partially collected active form) and user info — reports
`current_form = None`, `current_step = None`, `is_form_active = False`,
`form_completed = False` and `requires_confirmation = False`, denying the
in-progress form session for that turn. -/
theorem claim10_fallback_denies_form_state (ag : AgentState) (o : ProcessOracle)
    (message : String) (conv : Conversation) (ui : StrDict) :
    (fallbackToRuleBased ag o message conv ui).2.resp.currentForm = none ∧
    (fallbackToRuleBased ag o message conv ui).2.resp.currentStep = none ∧
    (fallbackToRuleBased ag o message conv ui).2.resp.isFormActive = false ∧
    (fallbackToRuleBased ag o message conv ui).2.resp.formCompleted = false ∧
    (fallbackToRuleBased ag o message conv ui).2.resp.requiresConfirmation = false :=
  ⟨(fallbackToRuleBased_spec ag o message conv ui).2.2.2.1,
   (fallbackToRuleBased_spec ag o message conv ui).2.2.2.2.1,
   (fallbackToRuleBased_spec ag o message conv ui).2.2.2.2.2.1,
   (fallbackToRuleBased_spec ag o message conv ui).2.2.2.2.2.2.1,
   (fallbackToRuleBased_spec ag o message conv ui).2.2.2.2.2.2.2.1⟩
